import Mathlib

/-!
Formal verification of the sha3-rs repository: a shallow embedding of the
Keccak / SHA-3 implementation, with machine integers modelled as `Nat`
(explicit `% 2 ^ 64` where `u64` overflow matters) and byte buffers as
`List Nat` of values below 256.

The repository contains two implementations of the Keccak-f[1600]
permutation:
 - `src/keccak.rs`: the state is a 200-byte buffer `[u8; 200]`; lanes are
   read and written through little-endian encoding of 8-byte groups.
   Embedded below in namespace `Keccak`.
 - `src/permute.rs`: the state is `[u64; 25]`; the sponge reads the state
   through a byte-view cast, which on a little-endian host is exactly the
   little-endian serialization of the lanes. Embedded below in namespace
   `Permute`, with the byte view given by `lanesToBytes`.
-/

set_option maxRecDepth 10000
set_option linter.unusedVariables false

/-- Little-endian bytes of a `u64` value: `u64::to_le_bytes`. -/
def leBytes8 (v : Nat) : List Nat :=
  [v % 256, (v >>> 8) % 256, (v >>> 16) % 256, (v >>> 24) % 256,
   (v >>> 32) % 256, (v >>> 40) % 256, (v >>> 48) % 256, (v >>> 56) % 256]

/-- Little-endian decoding of a byte list into a value: `u64::from_le_bytes`
on an 8-byte slice. Bytes are `u8`, hence below 256 wherever this is used. -/
def fromLE8 (bs : List Nat) : Nat :=
  bs.foldr (fun b acc => b + 256 * acc) 0

/-- Serialize a list of `u64` lanes into its little-endian byte view. This is
the byte view that `State::bytes` in src/permute.rs exposes through the
pointer cast on a little-endian host. -/
def lanesToBytes : List Nat → List Nat
  | [] => []
  | l :: ls => leBytes8 l ++ lanesToBytes ls

/-- Decode a byte buffer into its `u64` lanes, 8 bytes per lane,
little-endian; a trailing group of fewer than 8 bytes forms a final lane
(unused: the state always has 25 full lanes). -/
def bytesToLanes : List Nat → List Nat
  | b0 :: b1 :: b2 :: b3 :: b4 :: b5 :: b6 :: b7 :: rest =>
    fromLE8 [b0, b1, b2, b3, b4, b5, b6, b7] :: bytesToLanes rest
  | [] => []
  | bs => [fromLE8 bs]

/-- Left rotation of a `u64` value: `u64::rotate_left`. -/
def rotl64 (v n : Nat) : Nat :=
  ((v <<< (n % 64)) ||| (v >>> ((64 - n % 64) % 64))) % 2 ^ 64

/-- Bitwise complement of a `u64` value: the `!` operator on `u64`. -/
def not64 (v : Nat) : Nat := v ^^^ (2 ^ 64 - 1)

/-- A valid lane list: 25 lanes, each a `u64` value. -/
def ValidLanes (L : List Nat) : Prop :=
  L.length = 25 ∧ ∀ a ∈ L, a < 2 ^ 64

/-- A valid byte buffer of the Keccak state: 200 bytes, each a `u8` value. -/
def ValidBytes (bs : List Nat) : Prop :=
  bs.length = 200 ∧ ∀ b ∈ bs, b < 256

namespace Permute

/-- Number of rounds performed, `ROUNDS` in src/permute.rs. -/
def ROUNDS : Nat := 24

/-- Lane index in the state array, `idx` in src/permute.rs. -/
def idx (x y : Nat) : Nat := x % 5 + 5 * (y % 5)

/-- Read the lane at coordinates `(x, y)`: the `Index` impl of `State`. -/
def getL (A : List Nat) (x y : Nat) : Nat := A.getD (idx x y) 0

/-- Write the lane at coordinates `(x, y)`: the `IndexMut` impl of `State`. -/
def setL (A : List Nat) (x y v : Nat) : List Nat := A.set (idx x y) v

/-- Algorithm 1, the theta step of src/permute.rs: column parities `C`,
then the theta effect `D` is XORed into every lane of each sheet. -/
def theta (A : List Nat) : List Nat :=
  let C := (List.range 5).map fun x =>
    getL A x 0 ^^^ getL A x 1 ^^^ getL A x 2 ^^^ getL A x 3 ^^^ getL A x 4
  (List.range 5).foldl (fun A x =>
    let D := C.getD ((x + 4) % 5) 0 ^^^ rotl64 (C.getD ((x + 1) % 5) 0) 1
    (List.range 5).foldl (fun A y => setL A x y (getL A x y ^^^ D)) A) A

/-- Rotation offset table `KECCAK_RHO_OFFSETS` of src/permute.rs (the
entry 0x2b is the decimal 43 of the source). -/
def KECCAK_RHO_OFFSETS : List Nat :=
  [0, 1, 62, 28, 27, 36, 44, 6, 55, 20, 3, 10, 0x2b, 25, 39, 41, 45, 15, 21,
   8, 18, 2, 61, 56, 14]

/-- Algorithm 2, the rho step of src/permute.rs. -/
def rho (A : List Nat) : List Nat :=
  (List.range 5).foldl (fun A x =>
    (List.range 5).foldl (fun A y =>
      setL A x y (rotl64 (getL A x y) (KECCAK_RHO_OFFSETS.getD (x + 5 * y) 0))) A) A

/-- Algorithm 3, the pi step of src/permute.rs: writes go to the current
state while reads come from the snapshot `temp_A`. -/
def pi (A : List Nat) : List Nat :=
  let temp_A := A
  (List.range 5).foldl (fun A x =>
    (List.range 5).foldl (fun A y =>
      setL A y (2 * x + 3 * y) (getL temp_A x y)) A) A

/-- Algorithm 4, the chi step of src/permute.rs: per row, the five new
values are computed from the pre-update row and then written back. -/
def chi (A : List Nat) : List Nat :=
  (List.range 5).foldl (fun A y =>
    let C := (List.range 5).map fun x =>
      getL A x y ^^^ (not64 (getL A (x + 1) y) &&& getL A (x + 2) y)
    (List.range 5).foldl (fun A x => setL A x y (C.getD x 0)) A) A

/-- Round constant table `KECCAK_ROUND_CONSTANTS` of src/permute.rs. -/
def KECCAK_ROUND_CONSTANTS : List Nat :=
  [0x0000000000000001, 0x0000000000008082, 0x800000000000808a,
   0x8000000080008000, 0x000000000000808b, 0x0000000080000001,
   0x8000000080008081, 0x8000000000008009, 0x000000000000008a,
   0x0000000000000088, 0x0000000080008009, 0x000000008000000a,
   0x000000008000808b, 0x800000000000008b, 0x8000000000008089,
   0x8000000000008003, 0x8000000000008002, 0x8000000000000080,
   0x000000000000800a, 0x800000008000000a, 0x8000000080008081,
   0x8000000000008080, 0x0000000080000001, 0x8000000080008008]

/-- Algorithm 6, the iota step of src/permute.rs. -/
def iota (A : List Nat) (round : Nat) : List Nat :=
  setL A 0 0 (getL A 0 0 ^^^ KECCAK_ROUND_CONSTANTS.getD round 0)

/-- Body of the round loop in `State::keccakf_1600_permute`: one round
applies theta, rho, pi, chi, iota in order. -/
def roundFn (A : List Nat) (round : Nat) : List Nat :=
  iota (chi (pi (rho (theta A)))) round

/-- Algorithm 7, `State::keccakf_1600_permute` of src/permute.rs: 24 rounds
of theta, rho, pi, chi, iota. The `lanes_to_le` conversions at entry and
exit are the identity on a little-endian host. -/
def keccakf_1600_permute (A : List Nat) : List Nat :=
  (List.range ROUNDS).foldl roundFn A

end Permute

namespace Keccak

/-- Domain separation byte `DELIMETED_SUFFIX` of src/keccak.rs. -/
def DELIMETED_SUFFIX : Nat := 0b110

/-- Number of rounds, `ROUNDS` in src/keccak.rs. -/
def ROUNDS : Nat := 24

/-- Lane index, `idx` in src/keccak.rs. -/
def idx (x y : Nat) : Nat := x % 5 + 5 * (y % 5)

/-- Start byte of a lane in the 200-byte state, `lane_start_byte`. -/
def lane_start_byte (x y : Nat) : Nat := 8 * idx x y

/-- XOR a list of bytes into a byte buffer starting at a given offset, one
byte at a time. This is the semantics of the zip loops in `xor_lane` of
src/keccak.rs und `xor_bytes` of src/sponge.rs. -/
def xorAt : List Nat → Nat → List Nat → List Nat
  | bs, _, [] => bs
  | bs, off, m :: ms => xorAt (bs.set off (bs.getD off 0 ^^^ m)) (off + 1) ms

/-- Read the lane at `(x, y)`: `State::lane` of src/keccak.rs,
`u64::from_le_bytes` of the 8 bytes at the lane start. -/
def lane (bs : List Nat) (x y : Nat) : Nat :=
  fromLE8 ((bs.drop (lane_start_byte x y)).take 8)

/-- Overwrite the lane at `(x, y)`: `State::write_lane` of src/keccak.rs,
`copy_from_slice` of the little-endian bytes of the value. -/
def write_lane (bs : List Nat) (x y v : Nat) : List Nat :=
  bs.take (lane_start_byte x y) ++ leBytes8 v ++ bs.drop (lane_start_byte x y + 8)

/-- XOR the lane at `(x, y)`: `State::xor_lane` of src/keccak.rs. -/
def xor_lane (bs : List Nat) (x y v : Nat) : List Nat :=
  xorAt bs (lane_start_byte x y) (leBytes8 v)

/-- Algorithm 1, the theta step of src/keccak.rs. -/
def theta (A : List Nat) : List Nat :=
  let C := (List.range 5).map fun x =>
    lane A x 0 ^^^ lane A x 1 ^^^ lane A x 2 ^^^ lane A x 3 ^^^ lane A x 4
  (List.range 5).foldl (fun A x =>
    let D := C.getD ((x + 4) % 5) 0 ^^^ rotl64 (C.getD ((x + 1) % 5) 0) 1
    (List.range 5).foldl (fun A y => xor_lane A x y D) A) A

/-- Rotation offset table `KECCAK_RHO_OFFSETS` of src/keccak.rs (the
entry 0x2b is the decimal 43 of the source). -/
def KECCAK_RHO_OFFSETS : List Nat :=
  [0, 1, 62, 28, 27, 36, 44, 6, 55, 20, 3, 10, 0x2b, 25, 39, 41, 45, 15, 21,
   8, 18, 2, 61, 56, 14]

/-- Algorithm 2, the rho step of src/keccak.rs. -/
def rho (A : List Nat) : List Nat :=
  (List.range 5).foldl (fun A x =>
    (List.range 5).foldl (fun A y =>
      write_lane A x y (rotl64 (lane A x y) (KECCAK_RHO_OFFSETS.getD (x + 5 * y) 0))) A) A

/-- Algorithm 3, the pi step of src/keccak.rs, reading from the snapshot
`temp_A`. -/
def pi (A : List Nat) : List Nat :=
  let temp_A := A
  (List.range 5).foldl (fun A x =>
    (List.range 5).foldl (fun A y =>
      write_lane A y (2 * x + 3 * y) (lane temp_A x y)) A) A

/-- Algorithm 4, the chi step of src/keccak.rs. -/
def chi (A : List Nat) : List Nat :=
  (List.range 5).foldl (fun A y =>
    let C := (List.range 5).map fun x =>
      lane A x y ^^^ (not64 (lane A (x + 1) y) &&& lane A (x + 2) y)
    (List.range 5).foldl (fun A x => write_lane A x y (C.getD x 0)) A) A

/-- Round constant table `KECCAK_ROUND_CONSTANTS` of src/keccak.rs. -/
def KECCAK_ROUND_CONSTANTS : List Nat :=
  [0x0000000000000001, 0x0000000000008082, 0x800000000000808a,
   0x8000000080008000, 0x000000000000808b, 0x0000000080000001,
   0x8000000080008081, 0x8000000000008009, 0x000000000000008a,
   0x0000000000000088, 0x0000000080008009, 0x000000008000000a,
   0x000000008000808b, 0x800000000000008b, 0x8000000000008089,
   0x8000000000008003, 0x8000000000008002, 0x8000000000000080,
   0x000000000000800a, 0x800000008000000a, 0x8000000080008081,
   0x8000000000008080, 0x0000000080000001, 0x8000000080008008]

/-- Algorithm 6, the iota step of src/keccak.rs. -/
def iota (A : List Nat) (round : Nat) : List Nat :=
  xor_lane A 0 0 (KECCAK_ROUND_CONSTANTS.getD round 0)

/-- Algorithm 7, `keccakf_1600_state_permute` of src/keccak.rs. -/
def keccakf_1600_state_permute (A : List Nat) : List Nat :=
  (List.range ROUNDS).foldl (fun A round => iota (chi (pi (rho (theta A)))) round) A

/-- Absorbing loop of the `keccak` function in src/keccak.rs. Returns the
state together with the final value of `block_size` (the padding offset).
The loop XORs `min(remaining, rate_in_bytes)` input bytes at offset 0 and
permutes whenever a full rate block was absorbed. With `rate_in_bytes = 0`
and nonempty input the source loop never terminates; that case is mapped
to `none` and is unreachable from the public API. -/
def keccakAbsorb (rib : Nat) (st : List Nat) (input : List Nat) (blockSize : Nat) :
    Option (List Nat × Nat) :=
  if h : input.length = 0 then some (st, blockSize)
  else
    if hr : rib = 0 then none
    else
      let bs := min input.length rib
      let st1 := xorAt st 0 (input.take bs)
      if bs = rib then keccakAbsorb rib (keccakf_1600_state_permute st1) (input.drop bs) 0
      else keccakAbsorb rib st1 (input.drop bs) bs
termination_by input.length
decreasing_by
  all_goals simp [List.length_drop]
  all_goals omega

/-- Squeezing loop of the `keccak` function in src/keccak.rs. Each
iteration computes `block_size = min(remaining, rate_in_bytes)` and runs
`output.copy_from_slice(&state.bytes[..block_size])` on the whole remaining
output slice; `copy_from_slice` panics (`none`) unless the remaining output
has exactly `block_size` bytes, i.e. unless the remaining output fits in
one rate block, in which case the loop copies the first `outLen` state
bytes, the remaining length drops to 0 and the loop exits without a
further permutation. -/
def keccakSqueeze (rib : Nat) (st : List Nat) (outLen : Nat) : Option (List Nat) :=
  if outLen = 0 then some []
  else
    let block := min outLen rib
    if outLen = block then some (st.take block)
    else none

/-- The one-shot sponge `keccak` of src/keccak.rs. The two `assert_eq`
calls panic (`none`) unless `rate + capacity == 1600` and `rate % 8 == 0`.
The state starts as 200 zero bytes; after the absorbing loop the domain
suffix is XORed at `block_size` and `0x80` at `rate_in_bytes - 1`, one
permutation runs, then the squeezing loop fills the output. -/
def keccak (rate capacity : Nat) (input : List Nat) (outLen : Nat) :
    Option (List Nat) :=
  if rate + capacity ≠ 1600 then none
  else if rate % 8 ≠ 0 then none
  else
    let rib := rate / 8
    (keccakAbsorb rib (List.replicate 200 0) input 0).bind fun sb =>
      let st1 := sb.1.set sb.2 (sb.1.getD sb.2 0 ^^^ DELIMETED_SUFFIX)
      let st2 := st1.set (rib - 1) (st1.getD (rib - 1) 0 ^^^ 0b10000000)
      keccakSqueeze rib (keccakf_1600_state_permute st2) outLen

end Keccak

/-- The public one-shot `sha3_224` of src/lib.rs. -/
def sha3_224 (message : List Nat) : Option (List Nat) :=
  Keccak.keccak (1600 - 224 * 2) (224 * 2) message 28

/-- The public one-shot `sha3_256` of src/lib.rs. -/
def sha3_256 (message : List Nat) : Option (List Nat) :=
  Keccak.keccak (1600 - 256 * 2) (256 * 2) message 32

/-- The public one-shot `sha3_384` of src/lib.rs. -/
def sha3_384 (message : List Nat) : Option (List Nat) :=
  Keccak.keccak (1600 - 384 * 2) (384 * 2) message 48

/-- The public one-shot `sha3_512` of src/lib.rs. -/
def sha3_512 (message : List Nat) : Option (List Nat) :=
  Keccak.keccak (1600 - 512 * 2) (512 * 2) message 64

/-- Byte view of the sponge permutation: decode the byte buffer into its
little-endian lanes, run `State::keccakf_1600_permute` of src/permute.rs,
and serialize back. This is how the sponge in src/sponge.rs, which reads
and writes the state exclusively through the `bytes`/`bytes_mut` casts,
observes the permutation. -/
def spongePermute (bs : List Nat) : List Nat :=
  lanesToBytes (Permute.keccakf_1600_permute (bytesToLanes bs))

namespace Sponge

/-- The `State::<RATE>::new` constructor of src/permute.rs: asserts that
`RATE` is one of the four supported byte rates and returns the all-zero
state (represented by its 200-byte view). A failed assert is `none`. -/
def stateNew (RATE : Nat) : Option (List Nat) :=
  if RATE = 144 ∨ RATE = 136 ∨ RATE = 104 ∨ RATE = 72 then
    some (List.replicate 200 0)
  else none

/-- The `AbsorbState<RATE>` of src/sponge.rs: a position cursor and the
permutation state, represented by its 200-byte little-endian view. -/
structure AbsorbSt where
  pos : Nat
  state : List Nat
deriving DecidableEq

/-- The `SqueezeState<RATE>` of src/sponge.rs. -/
structure SqueezeSt where
  pos : Nat
  state : List Nat
deriving DecidableEq

/-- `AbsorbState::init` of src/sponge.rs. -/
def init (RATE : Nat) : Option AbsorbSt :=
  (stateNew RATE).map fun st => ⟨0, st⟩

/-- The `slice::as_chunks::<RATE>` split: the list of full `n`-byte chunks
followed by the remainder of fewer than `n` bytes. -/
def asChunks (n : Nat) (l : List Nat) : List (List Nat) × List Nat :=
  if n = 0 ∨ l.length < n then ([], l)
  else
    let rec_result := asChunks n (l.drop n)
    (l.take n :: rec_result.1, rec_result.2)
termination_by l.length
decreasing_by simp [List.length_drop]; omega

/-- `AbsorbState::absorb` of src/sponge.rs: XOR a first, possibly partial,
block at the cursor; permute and reset the cursor when the block is full,
otherwise advance the cursor and return; then absorb the remaining full
rate blocks with a permutation each and XOR the final partial block at
offset 0. -/
def absorb (RATE : Nat) (s : AbsorbSt) (msg : List Nat) : AbsorbSt :=
  let partLen := min (RATE - s.pos) msg.length
  let first_msg := msg.take partLen
  let rest_msg := msg.drop partLen
  let st1 := Keccak.xorAt s.state s.pos first_msg
  if s.pos + partLen = RATE then
    let st2 := spongePermute st1
    let cr := asChunks RATE rest_msg
    let st3 := cr.1.foldl (fun st chunk => spongePermute (Keccak.xorAt st 0 chunk)) st2
    ⟨cr.2.length, Keccak.xorAt st3 0 cr.2⟩
  else
    ⟨s.pos + partLen, st1⟩

/-- `AbsorbState::into_squeeze` of src/sponge.rs: XOR the domain suffix at
the cursor and `0x80` at `RATE - 1`; no permutation is performed and the
squeeze cursor starts at 0. -/
def intoSqueeze (RATE : Nat) (suffix : Nat) (s : AbsorbSt) : SqueezeSt :=
  let st1 := s.state.set s.pos (s.state.getD s.pos 0 ^^^ suffix)
  let st2 := st1.set (RATE - 1) (st1.getD (RATE - 1) 0 ^^^ 0b10000000)
  ⟨0, st2⟩

/-- Inner chunk loop of `SqueezeState::squeeze`: for each full rate block
of the remaining output, permute and copy the first `RATE` state bytes.
Returns the final state and the emitted bytes. -/
def squeezeChunks (RATE : Nat) (st : List Nat) : Nat → List Nat × List Nat
  | 0 => (st, [])
  | q + 1 =>
    let st1 := spongePermute st
    let rest := squeezeChunks RATE st1 q
    (rest.1, st1.take RATE ++ rest.2)

/-- `SqueezeState::squeeze` of src/sponge.rs, returning the new state and
the `outLen` bytes written into the output buffer. An empty output returns
immediately; otherwise the state is permuted if the cursor is 0, a first
partial block is copied from the cursor, each remaining full block is
copied after a permutation, and the final partial block is copied from
offset 0 of the current state without a further permutation, the cursor
becoming its length. -/
def squeeze (RATE : Nat) (s : SqueezeSt) (outLen : Nat) : SqueezeSt × List Nat :=
  if outLen = 0 then (s, [])
  else
    let st1 := if s.pos = 0 then spongePermute s.state else s.state
    let partLen := min (RATE - s.pos) outLen
    let first_output := (st1.drop s.pos).take partLen
    let pos1 := (s.pos + partLen) % RATE
    if outLen - partLen = 0 then (⟨pos1, st1⟩, first_output)
    else
      let rem := outLen - partLen
      let q := rem / RATE
      let r := rem % RATE
      let chunksOut := squeezeChunks RATE st1 q
      (⟨r, chunksOut.1⟩, first_output ++ chunksOut.2 ++ chunksOut.1.take r)

end Sponge

namespace Hasher

/-- `Hasher::<S>::new` of src/hasher.rs for rate `R`: `AbsorbState::init`. -/
def new (R : Nat) : Option Sponge.AbsorbSt := Sponge.init R

/-- `Hasher::update` of src/hasher.rs: delegates to `absorb`. -/
def update (R : Nat) (s : Sponge.AbsorbSt) (msg : List Nat) : Sponge.AbsorbSt :=
  Sponge.absorb R s msg

/-- `Hasher::finalize` of src/hasher.rs for output size `d`:
`into_squeeze::<0b110>` followed by squeezing `d` bytes. -/
def finalize (R d : Nat) (s : Sponge.AbsorbSt) : List Nat :=
  (Sponge.squeeze R (Sponge.intoSqueeze R 0b110 s) d).2

/-- The incremental SHA3-224 digest of a whole message:
`Sha3_224::new()`, one `update`, `finalize`. -/
def sha3_224 (msg : List Nat) : Option (List Nat) :=
  (new 144).map fun s => finalize 144 28 (update 144 s msg)

/-- The incremental SHA3-256 digest of a whole message. -/
def sha3_256 (msg : List Nat) : Option (List Nat) :=
  (new 136).map fun s => finalize 136 32 (update 136 s msg)

/-- The incremental SHA3-384 digest of a whole message. -/
def sha3_384 (msg : List Nat) : Option (List Nat) :=
  (new 104).map fun s => finalize 104 48 (update 104 s msg)

/-- The incremental SHA3-512 digest of a whole message. -/
def sha3_512 (msg : List Nat) : Option (List Nat) :=
  (new 72).map fun s => finalize 72 64 (update 72 s msg)

end Hasher

/-- Absorb a single message byte at the cursor; permute and wrap when the
block is complete. Parameterized by the permutation function. -/
def stepByte (perm : List Nat → List Nat) (R : Nat)
    (sp : List Nat × Nat) (b : Nat) : List Nat × Nat :=
  let st := sp.1.set sp.2 (sp.1.getD sp.2 0 ^^^ b)
  if sp.2 + 1 = R then (perm st, 0) else (st, sp.2 + 1)

/-- Modelled from the spec: the FIPS 202 permute-at-end-of-absorb squeezing
stream. After finalization the state is permuted, the first `R` bytes are
emitted, and each further block is emitted after one more permutation. The
first `k` blocks of that stream. -/
def fipsBlocks (R : Nat) (st : List Nat) : Nat → List Nat
  | 0 => []
  | k + 1 => (spongePermute st).take R ++ fipsBlocks R (spongePermute st) k

/-- Modelled from the spec: the first `n` bytes of the FIPS 202 squeezing
stream that starts from the padded state `st`. -/
def fipsSqueeze (R : Nat) (st : List Nat) (n : Nat) : List Nat :=
  (fipsBlocks R st (n / R + 1)).take n

/-- The decoder peels the first eight bytes into one lane. -/
theorem bytesToLanes_eq (bs : List Nat) (h : bs ≠ []) :
    bytesToLanes bs = fromLE8 (bs.take 8) :: bytesToLanes (bs.drop 8) := by
  rcases bs with _ | ⟨b0, _ | ⟨b1, _ | ⟨b2, _ | ⟨b3, _ | ⟨b4, _ | ⟨b5, _ | ⟨b6, _ | ⟨b7, rest⟩⟩⟩⟩⟩⟩⟩⟩
  · exact absurd rfl h
  all_goals rfl

/-! Arithmetic facts about little-endian byte encoding. -/

theorem mod_two_pow_xor (a b k : Nat) :
    (a ^^^ b) % 2 ^ k = (a % 2 ^ k) ^^^ (b % 2 ^ k) := by
  apply Nat.eq_of_testBit_eq
  intro i
  simp [Nat.testBit_mod_two_pow, Nat.testBit_xor]
  by_cases hi : i < k <;> simp [hi]

theorem shiftRight_xor_distrib (a b s : Nat) :
    (a ^^^ b) >>> s = (a >>> s) ^^^ (b >>> s) := by
  apply Nat.eq_of_testBit_eq
  intro i
  simp [Nat.testBit_shiftRight, Nat.testBit_xor]

theorem byte_xor (a b s : Nat) :
    ((a ^^^ b) >>> s) % 256 = ((a >>> s) % 256) ^^^ ((b >>> s) % 256) := by
  have h : (256 : Nat) = 2 ^ 8 := by norm_num
  rw [shiftRight_xor_distrib, h, mod_two_pow_xor]

theorem byte_xor0 (a b : Nat) : (a ^^^ b) % 256 = (a % 256) ^^^ (b % 256) := by
  simpa using byte_xor a b 0

theorem leBytes8_xor (a b : Nat) :
    leBytes8 (a ^^^ b) = List.zipWith (fun x y => x ^^^ y) (leBytes8 a) (leBytes8 b) := by
  simp [leBytes8, byte_xor, byte_xor0]

theorem fromLE8_leBytes8 (a : Nat) (h : a < 2 ^ 64) : fromLE8 (leBytes8 a) = a := by
  simp [fromLE8, leBytes8, Nat.shiftRight_eq_div_pow]
  omega

theorem leBytes8_fromLE8 (bs : List Nat) (hl : bs.length = 8)
    (hb : ∀ b ∈ bs, b < 256) : leBytes8 (fromLE8 bs) = bs := by
  rcases bs with _ | ⟨b0, _ | ⟨b1, _ | ⟨b2, _ | ⟨b3, _ | ⟨b4, _ | ⟨b5, _ | ⟨b6, _ | ⟨b7, rest⟩⟩⟩⟩⟩⟩⟩⟩ <;> simp_all
  simp [fromLE8, leBytes8, Nat.shiftRight_eq_div_pow]
  omega

theorem fromLE8_lt (bs : List Nat) (hb : ∀ b ∈ bs, b < 256) :
    fromLE8 bs < 256 ^ bs.length := by
  induction bs with
  | nil => simp [fromLE8]
  | cons b rest ih =>
    have hb0 : b < 256 := hb b (List.mem_cons_self _ _)
    have hrest := ih (fun x hx => hb x (List.mem_cons_of_mem _ hx))
    simp only [fromLE8, List.foldr_cons] at *
    calc b + 256 * rest.foldr (fun b acc => b + 256 * acc) 0
        < 256 * (rest.foldr (fun b acc => b + 256 * acc) 0 + 1) := by omega
      _ ≤ 256 * 256 ^ rest.length := Nat.mul_le_mul_left _ hrest
      _ = 256 ^ (rest.length + 1) := by ring
      _ = 256 ^ (b :: rest).length := by simp

theorem leBytes8_length (v : Nat) : (leBytes8 v).length = 8 := by
  simp [leBytes8]

theorem leBytes8_lt (v : Nat) : ∀ b ∈ leBytes8 v, b < 256 := by
  intro b hb
  simp [leBytes8] at hb
  rcases hb with h | h | h | h | h | h | h | h <;> omega

/-! Structure of the little-endian lane serialization. -/

theorem lanesToBytes_append (L1 L2 : List Nat) :
    lanesToBytes (L1 ++ L2) = lanesToBytes L1 ++ lanesToBytes L2 := by
  induction L1 with
  | nil => rfl
  | cons l ls ih => simp [lanesToBytes, ih]

theorem lanesToBytes_length (L : List Nat) :
    (lanesToBytes L).length = 8 * L.length := by
  induction L with
  | nil => rfl
  | cons l ls ih => simp [lanesToBytes, ih, leBytes8]; ring

theorem lanesToBytes_drop (j : Nat) (L : List Nat) :
    (lanesToBytes L).drop (8 * j) = lanesToBytes (L.drop j) := by
  induction j generalizing L with
  | zero => simp
  | succ j ih =>
    cases L with
    | nil => simp [lanesToBytes]
    | cons l ls =>
      have h8 : 8 * (j + 1) = (leBytes8 l).length + 8 * j := by
        simp [leBytes8_length]; ring
      simp only [lanesToBytes, h8, List.drop_append, List.drop_succ_cons]
      exact ih ls

theorem lanesToBytes_take (j : Nat) (L : List Nat) :
    (lanesToBytes L).take (8 * j) = lanesToBytes (L.take j) := by
  induction j generalizing L with
  | zero => simp [lanesToBytes]
  | succ j ih =>
    cases L with
    | nil => simp [lanesToBytes]
    | cons l ls =>
      have h8 : 8 * (j + 1) = (leBytes8 l).length + 8 * j := by
        simp [leBytes8_length]; ring
      simp only [lanesToBytes, h8, List.take_append, List.take_succ_cons]
      rw [ih ls]

theorem lanesToBytes_lt (L : List Nat) : ∀ b ∈ lanesToBytes L, b < 256 := by
  induction L with
  | nil => simp [lanesToBytes]
  | cons l ls ih =>
    intro b hb
    simp only [lanesToBytes, List.mem_append] at hb
    rcases hb with h | h
    · exact leBytes8_lt l b h
    · exact ih b h

/-! Lane access on the little-endian byte view of a lane list. -/

theorem idx_lt (x y : Nat) : Permute.idx x y < 25 := by
  unfold Permute.idx
  omega

theorem keccak_idx_eq (x y : Nat) : Keccak.idx x y = Permute.idx x y := rfl

theorem xorAt_append_left (ys : List Nat) :
    ∀ (ms xs : List Nat) (off : Nat), off + ms.length ≤ xs.length →
      Keccak.xorAt (xs ++ ys) off ms = Keccak.xorAt xs off ms ++ ys := by
  intro ms
  induction ms with
  | nil => intro xs off h; rfl
  | cons m ms ih =>
    intro xs off h
    simp only [List.length_cons] at h
    have hoff : off < xs.length := by omega
    simp only [Keccak.xorAt]
    rw [List.getD_append _ _ _ _ hoff, List.set_append, if_pos hoff, ih]
    simp only [List.length_set]
    omega

theorem xorAt_append_right (xs : List Nat) :
    ∀ (ms ys : List Nat) (off : Nat),
      Keccak.xorAt (xs ++ ys) (xs.length + off) ms = xs ++ Keccak.xorAt ys off ms := by
  intro ms
  induction ms with
  | nil => intro ys off; rfl
  | cons m ms ih =>
    intro ys off
    simp only [Keccak.xorAt]
    rw [List.getD_append_right _ _ _ _ (by omega), List.set_append,
      if_neg (by omega)]
    have h1 : xs.length + off - xs.length = off := by omega
    have h2 : xs.length + off + 1 = xs.length + (off + 1) := by omega
    rw [h1, h2, ih]

theorem xorAt_leBytes (a v : Nat) :
    Keccak.xorAt (leBytes8 a) 0 (leBytes8 v) = leBytes8 (a ^^^ v) := by
  simp [Keccak.xorAt, leBytes8, List.set, List.getD, byte_xor, byte_xor0]

theorem lane_enc (L : List Nat) (hL : L.length = 25) (hv : ∀ a ∈ L, a < 2 ^ 64)
    (x y : Nat) : Keccak.lane (lanesToBytes L) x y = Permute.getL L x y := by
  have hj : Permute.idx x y < L.length := by rw [hL]; exact idx_lt x y
  unfold Keccak.lane Keccak.lane_start_byte
  rw [keccak_idx_eq, lanesToBytes_drop, List.drop_eq_getElem_cons hj]
  show fromLE8 ((leBytes8 _ ++ lanesToBytes _).take 8) = _
  rw [show (8 : Nat) = (leBytes8 (L[Permute.idx x y])).length from (leBytes8_length _).symm,
    List.take_left]
  rw [fromLE8_leBytes8 _ (hv _ (List.getElem_mem hj))]
  unfold Permute.getL
  rw [List.getD_eq_getElem _ _ hj]

theorem write_enc (L : List Nat) (hL : L.length = 25) (x y v : Nat) :
    Keccak.write_lane (lanesToBytes L) x y v = lanesToBytes (Permute.setL L x y v) := by
  have hj : Permute.idx x y < L.length := by rw [hL]; exact idx_lt x y
  unfold Keccak.write_lane Keccak.lane_start_byte
  rw [keccak_idx_eq, lanesToBytes_take,
    show 8 * Permute.idx x y + 8 = 8 * (Permute.idx x y + 1) by ring, lanesToBytes_drop]
  unfold Permute.setL
  rw [List.set_eq_take_append_cons_drop, if_pos hj]
  rw [lanesToBytes_append]
  show _ = lanesToBytes _ ++ lanesToBytes (_ :: _)
  rw [show lanesToBytes (v :: L.drop (Permute.idx x y + 1)) =
    leBytes8 v ++ lanesToBytes (L.drop (Permute.idx x y + 1)) from rfl]
  rw [List.append_assoc]

theorem xor_enc (L : List Nat) (hL : L.length = 25) (x y v : Nat) :
    Keccak.xor_lane (lanesToBytes L) x y v =
      lanesToBytes (Permute.setL L x y (Permute.getL L x y ^^^ v)) := by
  have hj : Permute.idx x y < L.length := by rw [hL]; exact idx_lt x y
  unfold Keccak.xor_lane Keccak.lane_start_byte
  rw [keccak_idx_eq]
  have hsplit : L = L.take (Permute.idx x y) ++
      L[Permute.idx x y] :: L.drop (Permute.idx x y + 1) := by
    conv_lhs => rw [← List.take_append_drop (Permute.idx x y) L]
    rw [List.drop_eq_getElem_cons hj]
  have hlen : (lanesToBytes (L.take (Permute.idx x y))).length = 8 * Permute.idx x y := by
    rw [lanesToBytes_length, List.length_take]
    omega
  conv_lhs => rw [hsplit]
  rw [lanesToBytes_append]
  rw [show 8 * Permute.idx x y = (lanesToBytes (L.take (Permute.idx x y))).length + 0 by omega]
  rw [xorAt_append_right]
  rw [show lanesToBytes (L[Permute.idx x y] :: L.drop (Permute.idx x y + 1)) =
    leBytes8 (L[Permute.idx x y]) ++ lanesToBytes (L.drop (Permute.idx x y + 1)) from rfl]
  rw [xorAt_append_left _ _ _ _ (by simp [leBytes8_length]), xorAt_leBytes]
  unfold Permute.setL Permute.getL
  rw [List.set_eq_take_append_cons_drop, if_pos hj, List.getD_eq_getElem _ _ hj]
  rw [lanesToBytes_append]
  rfl

/-! Validity bookkeeping for lane lists. -/

theorem validLanes_set (L : List Nat) (hP : ValidLanes L) (x y v : Nat)
    (hvv : v < 2 ^ 64) : ValidLanes (Permute.setL L x y v) := by
  obtain ⟨hL, hv⟩ := hP
  refine ⟨by simp [Permute.setL, hL], ?_⟩
  intro a ha
  rcases List.mem_or_eq_of_mem_set ha with h | h
  · exact hv a h
  · omega

theorem getD_lt (l : List Nat) (B : Nat) (hB : 0 < B) (h : ∀ a ∈ l, a < B)
    (j : Nat) : l.getD j 0 < B := by
  by_cases hj : j < l.length
  · rw [List.getD_eq_getElem _ _ hj]
    exact h _ (List.getElem_mem hj)
  · rw [List.getD_eq_default _ _ (by omega)]
    exact hB

theorem getL_lt (L : List Nat) (hv : ∀ a ∈ L, a < 2 ^ 64) (x y : Nat) :
    Permute.getL L x y < 2 ^ 64 :=
  getD_lt L _ (by norm_num) hv _

theorem rotl64_lt (v n : Nat) : rotl64 v n < 2 ^ 64 :=
  Nat.mod_lt _ (by norm_num)

theorem not64_lt (v : Nat) (h : v < 2 ^ 64) : not64 v < 2 ^ 64 :=
  Nat.xor_lt_two_pow h (by norm_num)

theorem and_lt_64 (a b : Nat) (h : a < 2 ^ 64) : a &&& b < 2 ^ 64 :=
  lt_of_le_of_lt Nat.and_le_left h

/-- Commuting a fold of byte-level operations with the same fold of
lane-level operations through the little-endian serialization. -/
theorem foldl_enc_comm {ι : Type} (P : List Nat → Prop)
    (f : List Nat → ι → List Nat) (g : List Nat → ι → List Nat)
    (hfg : ∀ L i, P L → f (lanesToBytes L) i = lanesToBytes (g L i) ∧ P (g L i)) :
    ∀ (is : List ι) (L : List Nat), P L →
      List.foldl f (lanesToBytes L) is = lanesToBytes (List.foldl g L is) ∧
      P (List.foldl g L is) := by
  intro is
  induction is with
  | nil => intro L hL; exact ⟨rfl, hL⟩
  | cons i is ih =>
    intro L hL
    obtain ⟨he, hp⟩ := hfg L i hL
    simp only [List.foldl_cons, he]
    exact ih (g L i) hp

/-! The byte-array permutation steps of src/keccak.rs simulate the lane
steps of src/permute.rs through the little-endian serialization. -/

theorem theta_enc (L : List Nat) (hP : ValidLanes L) :
    Keccak.theta (lanesToBytes L) = lanesToBytes (Permute.theta L) ∧
    ValidLanes (Permute.theta L) := by
  obtain ⟨hL, hv⟩ := hP
  unfold Keccak.theta Permute.theta
  simp only [lane_enc L hL hv]
  have hC : ∀ a ∈ (List.range 5).map (fun x =>
      Permute.getL L x 0 ^^^ Permute.getL L x 1 ^^^ Permute.getL L x 2 ^^^
      Permute.getL L x 3 ^^^ Permute.getL L x 4), a < 2 ^ 64 := by
    intro a ha
    simp only [List.mem_map] at ha
    obtain ⟨x, _, rfl⟩ := ha
    exact Nat.xor_lt_two_pow (Nat.xor_lt_two_pow (Nat.xor_lt_two_pow
      (Nat.xor_lt_two_pow (getL_lt L hv x 0) (getL_lt L hv x 1))
      (getL_lt L hv x 2)) (getL_lt L hv x 3)) (getL_lt L hv x 4)
  refine foldl_enc_comm ValidLanes _ _ ?_ (List.range 5) L ⟨hL, hv⟩
  intro L1 x hL1
  refine foldl_enc_comm ValidLanes _ _ ?_ (List.range 5) L1 hL1
  intro L2 y hL2
  refine ⟨xor_enc L2 hL2.1 x y _, validLanes_set L2 hL2 x y _ ?_⟩
  exact Nat.xor_lt_two_pow (getL_lt L2 hL2.2 x y)
    (Nat.xor_lt_two_pow (getD_lt _ _ (by norm_num) hC _) (rotl64_lt _ _))

theorem rho_offsets_eq : Keccak.KECCAK_RHO_OFFSETS = Permute.KECCAK_RHO_OFFSETS := rfl

theorem rc_tables_eq : Keccak.KECCAK_ROUND_CONSTANTS = Permute.KECCAK_ROUND_CONSTANTS := rfl

theorem rho_enc (L : List Nat) (hP : ValidLanes L) :
    Keccak.rho (lanesToBytes L) = lanesToBytes (Permute.rho L) ∧
    ValidLanes (Permute.rho L) := by
  unfold Keccak.rho Permute.rho
  rw [rho_offsets_eq]
  refine foldl_enc_comm ValidLanes _ _ ?_ (List.range 5) L hP
  intro L1 x hL1
  refine foldl_enc_comm ValidLanes _ _ ?_ (List.range 5) L1 hL1
  intro L2 y hL2
  rw [lane_enc L2 hL2.1 hL2.2, write_enc L2 hL2.1]
  exact ⟨rfl, validLanes_set L2 hL2 x y _ (rotl64_lt _ _)⟩

theorem pi_enc (L : List Nat) (hP : ValidLanes L) :
    Keccak.pi (lanesToBytes L) = lanesToBytes (Permute.pi L) ∧
    ValidLanes (Permute.pi L) := by
  obtain ⟨hL, hv⟩ := hP
  unfold Keccak.pi Permute.pi
  simp only [lane_enc L hL hv]
  refine foldl_enc_comm ValidLanes _ _ ?_ (List.range 5) L ⟨hL, hv⟩
  intro L1 x hL1
  refine foldl_enc_comm ValidLanes _ _ ?_ (List.range 5) L1 hL1
  intro L2 y hL2
  rw [write_enc L2 hL2.1]
  exact ⟨rfl, validLanes_set L2 hL2 y _ _ (getL_lt L hv x y)⟩

theorem chi_enc (L : List Nat) (hP : ValidLanes L) :
    Keccak.chi (lanesToBytes L) = lanesToBytes (Permute.chi L) ∧
    ValidLanes (Permute.chi L) := by
  unfold Keccak.chi Permute.chi
  refine foldl_enc_comm ValidLanes _ _ ?_ (List.range 5) L hP
  intro L1 y hL1
  simp only [lane_enc L1 hL1.1 hL1.2]
  have hC : ∀ a ∈ (List.range 5).map (fun x =>
      Permute.getL L1 x y ^^^ (not64 (Permute.getL L1 (x + 1) y) &&&
      Permute.getL L1 (x + 2) y)), a < 2 ^ 64 := by
    intro a ha
    simp only [List.mem_map] at ha
    obtain ⟨x, _, rfl⟩ := ha
    exact Nat.xor_lt_two_pow (getL_lt L1 hL1.2 x y)
      (and_lt_64 _ _ (not64_lt _ (getL_lt L1 hL1.2 (x + 1) y)))
  refine foldl_enc_comm ValidLanes _ _ ?_ (List.range 5) L1 hL1
  intro L2 x hL2
  rw [write_enc L2 hL2.1]
  exact ⟨rfl, validLanes_set L2 hL2 x y _ (getD_lt _ _ (by norm_num) hC _)⟩

theorem iota_enc (L : List Nat) (hP : ValidLanes L) (round : Nat) :
    Keccak.iota (lanesToBytes L) round = lanesToBytes (Permute.iota L round) ∧
    ValidLanes (Permute.iota L round) := by
  unfold Keccak.iota Permute.iota
  rw [rc_tables_eq, xor_enc L hP.1]
  refine ⟨rfl, validLanes_set L hP 0 0 _ ?_⟩
  refine Nat.xor_lt_two_pow (getL_lt L hP.2 0 0) (getD_lt _ _ (by norm_num) ?_ _)
  decide

theorem permute_enc (L : List Nat) (hP : ValidLanes L) :
    Keccak.keccakf_1600_state_permute (lanesToBytes L) =
      lanesToBytes (Permute.keccakf_1600_permute L) ∧
    ValidLanes (Permute.keccakf_1600_permute L) := by
  unfold Keccak.keccakf_1600_state_permute Permute.keccakf_1600_permute
  rw [show Keccak.ROUNDS = Permute.ROUNDS from rfl]
  refine foldl_enc_comm ValidLanes _ _ ?_ (List.range Permute.ROUNDS) L hP
  intro L1 round hL1
  obtain ⟨ht, hpt⟩ := theta_enc L1 hL1
  obtain ⟨hr, hpr⟩ := rho_enc _ hpt
  obtain ⟨hp, hpp⟩ := pi_enc _ hpr
  obtain ⟨hc, hpc⟩ := chi_enc _ hpp
  obtain ⟨hi, hpi⟩ := iota_enc _ hpc round
  unfold Permute.roundFn
  rw [ht, hr, hp, hc, hi]
  exact ⟨rfl, hpi⟩

/-! Decoding a valid byte buffer and serializing back is the identity. -/

theorem bytesToLanes_length : ∀ bs : List Nat,
    (bytesToLanes bs).length = (bs.length + 7) / 8 := by
  suffices hs : ∀ (m : Nat) (bs : List Nat), bs.length = m →
      (bytesToLanes bs).length = (bs.length + 7) / 8 by
    exact fun bs => hs bs.length bs rfl
  intro m
  induction m using Nat.strong_induction_on with
  | _ m ih =>
    intro bs hm
    by_cases h : bs = []
    · subst h
      simp [bytesToLanes]
    · rw [bytesToLanes_eq bs h]
      have hpos : 0 < bs.length := List.length_pos.mpr h
      have hrec := ih (bs.drop 8).length
        (by rw [List.length_drop]; omega) (bs.drop 8) rfl
      simp only [List.length_cons, hrec, List.length_drop]
      omega

theorem bytesToLanes_lt : ∀ bs : List Nat, (∀ b ∈ bs, b < 256) →
    ∀ l ∈ bytesToLanes bs, l < 2 ^ 64 := by
  suffices hs : ∀ (m : Nat) (bs : List Nat), bs.length = m → (∀ b ∈ bs, b < 256) →
      ∀ l ∈ bytesToLanes bs, l < 2 ^ 64 by
    exact fun bs => hs bs.length bs rfl
  intro m
  induction m using Nat.strong_induction_on with
  | _ m ih =>
    intro bs hm hb l hl
    by_cases h : bs = []
    · subst h
      simp [bytesToLanes] at hl
    · rw [bytesToLanes_eq bs h] at hl
      have hpos : 0 < bs.length := List.length_pos.mpr h
      rcases List.mem_cons.mp hl with hc | hc
      · subst hc
        have hlt := fromLE8_lt (bs.take 8)
          (fun x hx => hb x (List.take_subset _ _ hx))
        refine lt_of_lt_of_le hlt ?_
        have hlen : (bs.take 8).length ≤ 8 := by
          simp [List.length_take]
        calc (256 : Nat) ^ (bs.take 8).length ≤ 256 ^ 8 :=
              Nat.pow_le_pow_right (by norm_num) hlen
          _ = 2 ^ 64 := by norm_num
      · exact ih (bs.drop 8).length (by rw [List.length_drop]; omega)
          (bs.drop 8) rfl (fun x hx => hb x (List.drop_subset _ _ hx)) l hc

theorem lanesToBytes_bytesToLanes : ∀ bs : List Nat, 8 ∣ bs.length →
    (∀ b ∈ bs, b < 256) → lanesToBytes (bytesToLanes bs) = bs := by
  suffices hs : ∀ (m : Nat) (bs : List Nat), bs.length = m → 8 ∣ bs.length →
      (∀ b ∈ bs, b < 256) → lanesToBytes (bytesToLanes bs) = bs by
    exact fun bs => hs bs.length bs rfl
  intro m
  induction m using Nat.strong_induction_on with
  | _ m ih =>
    intro bs hm h8 hb
    by_cases h : bs = []
    · subst h
      rfl
    · rw [bytesToLanes_eq bs h, lanesToBytes]
      have hpos : 0 < bs.length := List.length_pos.mpr h
      have hlen8 : 8 ≤ bs.length := by
        obtain ⟨k, hk⟩ := h8
        omega
      rw [leBytes8_fromLE8 _ (by rw [List.length_take]; omega)
        (fun x hx => hb x (List.take_subset _ _ hx))]
      rw [ih (bs.drop 8).length (by rw [List.length_drop]; omega) (bs.drop 8) rfl
        ?_ (fun x hx => hb x (List.drop_subset _ _ hx))]
      · exact List.take_append_drop 8 bs
      · obtain ⟨k, hk⟩ := h8
        refine ⟨k - 1, ?_⟩
        rw [List.length_drop]
        omega

/-- The lane decomposition of a valid 200-byte buffer is a valid lane
list. -/
theorem validLanes_bytesToLanes (bs : List Nat) (h : ValidBytes bs) :
    ValidLanes (bytesToLanes bs) := by
  obtain ⟨hl, hb⟩ := h
  exact ⟨by rw [bytesToLanes_length, hl], bytesToLanes_lt bs hb⟩

/-- The serialization of any lane list is a list of bytes; for a 25-lane
list it is a valid 200-byte buffer. -/
theorem validBytes_lanesToBytes (L : List Nat) (hL : L.length = 25) :
    ValidBytes (lanesToBytes L) :=
  ⟨by rw [lanesToBytes_length, hL], lanesToBytes_lt L⟩

/-- Simulation of the two permutations on a valid byte buffer: the byte
version of src/keccak.rs equals decoding to lanes, the lane version of
src/permute.rs, and serializing back, which is exactly `spongePermute`. -/
theorem keccak_permute_eq_sponge_permute (bs : List Nat) (h : ValidBytes bs) :
    Keccak.keccakf_1600_state_permute bs = spongePermute bs := by
  have hdec := validLanes_bytesToLanes bs h
  have hrt : lanesToBytes (bytesToLanes bs) = bs :=
    lanesToBytes_bytesToLanes bs (by rw [h.1]; norm_num) h.2
  conv_lhs => rw [← hrt]
  rw [(permute_enc _ hdec).1]
  rfl

/-- The byte permutation of src/keccak.rs preserves byte validity. -/
theorem validBytes_keccak_permute (bs : List Nat) (h : ValidBytes bs) :
    ValidBytes (Keccak.keccakf_1600_state_permute bs) := by
  rw [keccak_permute_eq_sponge_permute bs h]
  exact validBytes_lanesToBytes _ (permute_enc _ (validLanes_bytesToLanes bs h)).2.1

/-- The sponge permutation preserves byte validity. -/
theorem validBytes_spongePermute (bs : List Nat) (h : ValidBytes bs) :
    ValidBytes (spongePermute bs) :=
  validBytes_lanesToBytes _ (permute_enc _ (validLanes_bytesToLanes bs h)).2.1

/-! Byte-at-a-time normal form of the absorbing phase. Both absorbing
loops of the repository XOR message bytes into consecutive state bytes
and permute exactly when a rate block is complete, so both are the fold
of the following single-byte step. -/

theorem foldl_stepByte_no_perm (perm : List Nat → List Nat) (R : Nat) :
    ∀ (msg st : List Nat) (pos : Nat), pos + msg.length < R →
      List.foldl (stepByte perm R) (st, pos) msg =
        (Keccak.xorAt st pos msg, pos + msg.length) := by
  intro msg
  induction msg with
  | nil => intro st pos h; simp [Keccak.xorAt]
  | cons b ms ih =>
    intro st pos h
    simp only [List.length_cons] at h
    simp only [List.foldl_cons, stepByte, if_neg (by omega : ¬pos + 1 = R)]
    rw [ih _ (pos + 1) (by omega)]
    show (Keccak.xorAt _ (pos + 1) ms, _) = (Keccak.xorAt st pos (b :: ms), _)
    rw [show Keccak.xorAt st pos (b :: ms) =
      Keccak.xorAt (st.set pos (st.getD pos 0 ^^^ b)) (pos + 1) ms from rfl]
    simp only [List.length_cons]
    congr 1
    omega

theorem foldl_stepByte_perm (perm : List Nat → List Nat) (R : Nat) :
    ∀ (msg st : List Nat) (pos : Nat), pos < R → pos + msg.length = R →
      List.foldl (stepByte perm R) (st, pos) msg =
        (perm (Keccak.xorAt st pos msg), 0) := by
  intro msg
  induction msg with
  | nil =>
    intro st pos hp h
    simp only [List.length_nil] at h
    omega
  | cons b ms ih =>
    intro st pos hp h
    simp only [List.length_cons] at h
    by_cases hfull : pos + 1 = R
    · have hms : ms = [] := by
        have : ms.length = 0 := by omega
        exact List.eq_nil_of_length_eq_zero this
      subst hms
      simp only [List.foldl_cons, stepByte, if_pos hfull, List.foldl_nil]
      rfl
    · simp only [List.foldl_cons, stepByte, if_neg hfull]
      rw [ih _ (pos + 1) (by omega) (by omega)]
      rfl

/-! Unfolding lemmas for the chunk splitting of `slice::as_chunks`. -/

theorem asChunks_small (n : Nat) (l : List Nat) (h : l.length < n) :
    Sponge.asChunks n l = ([], l) := by
  rw [Sponge.asChunks]
  simp [h]

theorem asChunks_step (n : Nat) (l : List Nat) (hn : 0 < n) (h : n ≤ l.length) :
    Sponge.asChunks n l = ((l.take n) :: (Sponge.asChunks n (l.drop n)).1,
      (Sponge.asChunks n (l.drop n)).2) := by
  rw [Sponge.asChunks]
  simp only [if_neg (by omega : ¬(n = 0 ∨ l.length < n))]

theorem asChunks_rest_lt (n : Nat) (hn : 0 < n) : ∀ l : List Nat,
    (Sponge.asChunks n l).2.length < n := by
  suffices hs : ∀ (m : Nat) (l : List Nat), l.length = m →
      (Sponge.asChunks n l).2.length < n by
    exact fun l => hs l.length l rfl
  intro m
  induction m using Nat.strong_induction_on with
  | _ m ih =>
    intro l hl
    by_cases h : l.length < n
    · rw [asChunks_small n l h]; exact h
    · have hle : n ≤ l.length := by omega
      rw [asChunks_step n l hn hle]
      exact ih (l.drop n).length (by simp [List.length_drop]; omega) (l.drop n) rfl

theorem foldl_stepByte_chunks (perm : List Nat → List Nat) (R : Nat) (hR : 0 < R) :
    ∀ (rest st : List Nat),
      List.foldl (stepByte perm R) (st, 0) rest =
        (Keccak.xorAt ((Sponge.asChunks R rest).1.foldl
            (fun st chunk => perm (Keccak.xorAt st 0 chunk)) st) 0
          (Sponge.asChunks R rest).2,
         (Sponge.asChunks R rest).2.length) := by
  suffices hs : ∀ (m : Nat) (rest : List Nat), rest.length = m → ∀ st : List Nat,
      List.foldl (stepByte perm R) (st, 0) rest =
        (Keccak.xorAt ((Sponge.asChunks R rest).1.foldl
            (fun st chunk => perm (Keccak.xorAt st 0 chunk)) st) 0
          (Sponge.asChunks R rest).2,
         (Sponge.asChunks R rest).2.length) by
    exact fun rest st => hs rest.length rest rfl st
  intro m
  induction m using Nat.strong_induction_on with
  | _ m ih =>
    intro rest hm st
    by_cases h : rest.length < R
    · rw [asChunks_small R rest h, foldl_stepByte_no_perm perm R rest st 0 (by omega)]
      simp
    · rw [asChunks_step R rest hR (by omega)]
      conv_lhs => rw [← List.take_append_drop R rest, List.foldl_append]
      rw [foldl_stepByte_perm perm R _ st 0 hR
        (by simp [List.length_take]; omega)]
      rw [ih (rest.drop R).length (by simp [List.length_drop]; omega) (rest.drop R) rfl
        (perm (Keccak.xorAt st 0 (rest.take R)))]
      rfl

/-! The two absorbing loops are folds of the single-byte step. -/

theorem absorb_eq_foldl (R : Nat) (hR : 0 < R) (s : Sponge.AbsorbSt)
    (hpos : s.pos < R) (msg : List Nat) :
    Sponge.absorb R s msg =
      ⟨(List.foldl (stepByte spongePermute R) (s.state, s.pos) msg).2,
       (List.foldl (stepByte spongePermute R) (s.state, s.pos) msg).1⟩ := by
  simp only [Sponge.absorb]
  by_cases hlen : msg.length < R - s.pos
  · have hmin : min (R - s.pos) msg.length = msg.length := by omega
    rw [hmin, List.take_length, if_neg (by omega)]
    rw [foldl_stepByte_no_perm _ _ _ _ _ (by omega)]
  · have hmin : min (R - s.pos) msg.length = R - s.pos := by omega
    rw [hmin, if_pos (by omega)]
    conv_rhs => rw [← List.take_append_drop (R - s.pos) msg, List.foldl_append]
    rw [foldl_stepByte_perm _ _ _ _ _ hpos (by simp [List.length_take]; omega)]
    rw [foldl_stepByte_chunks _ _ hR]

theorem keccakAbsorb_nil (rib blockSize : Nat) (st : List Nat) :
    Keccak.keccakAbsorb rib st [] blockSize = some (st, blockSize) := by
  rw [Keccak.keccakAbsorb]
  simp

theorem keccakAbsorb_small (rib blockSize : Nat) (st msg : List Nat)
    (h0 : msg.length ≠ 0) (h : msg.length < rib) :
    Keccak.keccakAbsorb rib st msg blockSize =
      some (Keccak.xorAt st 0 msg, msg.length) := by
  rw [Keccak.keccakAbsorb, dif_neg h0, dif_neg (by omega : ¬rib = 0)]
  have hmin : min msg.length rib = msg.length := by omega
  simp only [hmin, List.take_length, List.drop_length,
    if_neg (by omega : ¬msg.length = rib)]
  exact keccakAbsorb_nil rib msg.length _

theorem keccakAbsorb_big (rib blockSize : Nat) (st msg : List Nat)
    (hr : 0 < rib) (h : rib ≤ msg.length) (h0 : msg.length ≠ 0) :
    Keccak.keccakAbsorb rib st msg blockSize =
      Keccak.keccakAbsorb rib
        (Keccak.keccakf_1600_state_permute (Keccak.xorAt st 0 (msg.take rib)))
        (msg.drop rib) 0 := by
  conv_lhs => rw [Keccak.keccakAbsorb]
  rw [dif_neg h0, dif_neg (by omega : ¬rib = 0)]
  have hmin : min msg.length rib = rib := by omega
  simp only [hmin, eq_self_iff_true, if_true]

theorem keccakAbsorb_eq_foldl (rib : Nat) (hr : 0 < rib) : ∀ (msg st : List Nat),
    Keccak.keccakAbsorb rib st msg 0 =
      some (List.foldl (stepByte Keccak.keccakf_1600_state_permute rib) (st, 0) msg) := by
  suffices hs : ∀ (m : Nat) (msg : List Nat), msg.length = m → ∀ st : List Nat,
      Keccak.keccakAbsorb rib st msg 0 =
        some (List.foldl (stepByte Keccak.keccakf_1600_state_permute rib) (st, 0) msg) by
    exact fun msg st => hs msg.length msg rfl st
  intro m
  induction m using Nat.strong_induction_on with
  | _ m ih =>
    intro msg hm st
    by_cases h0 : msg.length = 0
    · have hnil : msg = [] := List.eq_nil_of_length_eq_zero h0
      subst hnil
      rw [keccakAbsorb_nil]
      simp
    · by_cases hge : rib ≤ msg.length
      · rw [keccakAbsorb_big rib 0 st msg hr hge h0]
        have hlt : (msg.drop rib).length < m := by
          rw [List.length_drop]
          omega
        rw [ih (msg.drop rib).length hlt (msg.drop rib) rfl]
        conv_rhs =>
          rw [← List.take_append_drop rib msg, List.foldl_append]
        rw [foldl_stepByte_perm Keccak.keccakf_1600_state_permute rib
          (msg.take rib) st 0 (by omega) (by simp [List.length_take]; omega)]
      · rw [keccakAbsorb_small rib 0 st msg h0 (by omega)]
        rw [foldl_stepByte_no_perm Keccak.keccakf_1600_state_permute rib
          msg st 0 (by omega)]
        simp

/-! Byte validity bookkeeping. -/

theorem xor_lt_256 (a b : Nat) (ha : a < 256) (hb : b < 256) : a ^^^ b < 256 := by
  have h : (256 : Nat) = 2 ^ 8 := by norm_num
  rw [h] at *
  exact Nat.xor_lt_two_pow ha hb

theorem getD_lt_256 (bs : List Nat) (h : ∀ b ∈ bs, b < 256) (i : Nat) :
    bs.getD i 0 < 256 :=
  getD_lt bs 256 (by norm_num) h i

theorem validBytes_set (bs : List Nat) (h : ValidBytes bs) (i v : Nat)
    (hv : v < 256) : ValidBytes (bs.set i v) := by
  refine ⟨by simp [h.1], ?_⟩
  intro a ha
  rcases List.mem_or_eq_of_mem_set ha with hm | hm
  · exact h.2 a hm
  · omega

theorem validBytes_xorAt : ∀ (ms bs : List Nat) (off : Nat), ValidBytes bs →
    (∀ b ∈ ms, b < 256) → ValidBytes (Keccak.xorAt bs off ms)
  | [], bs, off, hb, _ => hb
  | m :: ms, bs, off, hb, hm => by
    rw [Keccak.xorAt]
    refine validBytes_xorAt ms _ (off + 1) ?_ ?_
    · exact validBytes_set bs hb off _ (xor_lt_256 _ _ (getD_lt_256 bs hb.2 off)
        (hm m (List.mem_cons_self _ _)))
    · exact fun b h => hm b (List.mem_cons_of_mem _ h)

/-- The two folds, one with the byte permutation of src/keccak.rs and one
with the lane permutation of src/permute.rs seen through the byte view,
agree on valid states and messages, and preserve byte validity. -/
theorem foldl_stepByte_congr (R : Nat) : ∀ (msg : List Nat),
    (∀ b ∈ msg, b < 256) → ∀ (st : List Nat) (pos : Nat), ValidBytes st →
      List.foldl (stepByte Keccak.keccakf_1600_state_permute R) (st, pos) msg =
        List.foldl (stepByte spongePermute R) (st, pos) msg ∧
      ValidBytes (List.foldl (stepByte spongePermute R) (st, pos) msg).1
  | [] => fun _ st pos hst =>
    ⟨by rw [List.foldl_nil, List.foldl_nil], by rw [List.foldl_nil]; exact hst⟩
  | b :: ms => fun hm st pos hst => by
    have hb : b < 256 := hm b (List.mem_cons_self _ _)
    have hms : ∀ x ∈ ms, x < 256 := fun x h => hm x (List.mem_cons_of_mem _ h)
    have hst1 : ValidBytes (st.set pos (st.getD pos 0 ^^^ b)) :=
      validBytes_set st hst pos _ (xor_lt_256 _ _ (getD_lt_256 st hst.2 pos) hb)
    rw [List.foldl_cons, List.foldl_cons]
    by_cases hfull : pos + 1 = R
    · rw [show stepByte Keccak.keccakf_1600_state_permute R (st, pos) b =
        (Keccak.keccakf_1600_state_permute (st.set pos (st.getD pos 0 ^^^ b)), 0) by
          simp [stepByte, hfull]]
      rw [show stepByte spongePermute R (st, pos) b =
        (spongePermute (st.set pos (st.getD pos 0 ^^^ b)), 0) by
          simp [stepByte, hfull]]
      rw [keccak_permute_eq_sponge_permute _ hst1]
      exact foldl_stepByte_congr R ms hms
        (spongePermute (st.set pos (st.getD pos 0 ^^^ b))) 0
        (validBytes_spongePermute _ hst1)
    · rw [show stepByte Keccak.keccakf_1600_state_permute R (st, pos) b =
        (st.set pos (st.getD pos 0 ^^^ b), pos + 1) by simp [stepByte, hfull]]
      rw [show stepByte spongePermute R (st, pos) b =
        (st.set pos (st.getD pos 0 ^^^ b), pos + 1) by simp [stepByte, hfull]]
      exact foldl_stepByte_congr R ms hms (st.set pos (st.getD pos 0 ^^^ b))
        (pos + 1) hst1

/-! Cursor bookkeeping and basic sponge facts. -/

theorem foldl_stepByte_pos_lt (p : List Nat → List Nat) (R : Nat) (hR : 0 < R) :
    ∀ (msg st : List Nat) (pos : Nat), pos < R →
      (List.foldl (stepByte p R) (st, pos) msg).2 < R := by
  intro msg
  induction msg with
  | nil => intro st pos h; exact h
  | cons b ms ih =>
    intro st pos h
    rw [List.foldl_cons]
    by_cases hfull : pos + 1 = R
    · rw [show stepByte p R (st, pos) b =
        (p (st.set pos (st.getD pos 0 ^^^ b)), 0) by simp [stepByte, hfull]]
      exact ih _ 0 hR
    · rw [show stepByte p R (st, pos) b =
        (st.set pos (st.getD pos 0 ^^^ b), pos + 1) by simp [stepByte, hfull]]
      exact ih _ (pos + 1) (by omega)

theorem validBytes_replicate : ValidBytes (List.replicate 200 0) := by
  constructor
  · simp
  · intro b hb
    rw [List.eq_of_mem_replicate hb]
    norm_num

/-- An empty absorb call leaves the sponge untouched. -/
theorem absorb_nil (R : Nat) (s : Sponge.AbsorbSt) (hpos : s.pos < R) :
    Sponge.absorb R s [] = s := by
  simp only [Sponge.absorb, List.length_nil, Nat.min_zero, List.take_nil,
    List.drop_nil, Keccak.xorAt, Nat.add_zero]
  rw [if_neg (by omega)]

/-- The position after an absorb call stays below the rate. -/
theorem absorb_pos_lt (R : Nat) (hR : 0 < R) (s : Sponge.AbsorbSt)
    (hpos : s.pos < R) (msg : List Nat) : (Sponge.absorb R s msg).pos < R := by
  rw [absorb_eq_foldl R hR s hpos msg]
  exact foldl_stepByte_pos_lt spongePermute R hR msg s.state s.pos hpos

/-- Binary streaming associativity of absorb. -/
theorem absorb_append (R : Nat) (hR : 0 < R) (s : Sponge.AbsorbSt)
    (hpos : s.pos < R) (m1 m2 : List Nat) :
    Sponge.absorb R (Sponge.absorb R s m1) m2 = Sponge.absorb R s (m1 ++ m2) := by
  have h1 := absorb_eq_foldl R hR s hpos m1
  have hpos1 : (Sponge.absorb R s m1).pos < R := absorb_pos_lt R hR s hpos m1
  have h2 := absorb_eq_foldl R hR (Sponge.absorb R s m1) hpos1 m2
  rw [h2, absorb_eq_foldl R hR s hpos (m1 ++ m2), List.foldl_append]
  rw [h1]

/-- The position after a squeeze call stays below the rate. -/
theorem squeeze_pos_lt (R : Nat) (hR : 0 < R) (s : Sponge.SqueezeSt)
    (hpos : s.pos < R) (n : Nat) : (Sponge.squeeze R s n).1.pos < R := by
  simp only [Sponge.squeeze]
  by_cases h0 : n = 0
  · rw [if_pos h0]
    exact hpos
  · rw [if_neg h0]
    by_cases hrest : n - min (R - s.pos) n = 0
    · rw [if_pos hrest]
      exact Nat.mod_lt _ hR
    · rw [if_neg hrest]
      exact Nat.mod_lt _ hR

/-! Evaluation glue for the permutation on concrete states. The round fold
is split into segments so that intermediate states can be materialized. -/

theorem foldl_roundFn_24 (A B : List Nat)
    (h : List.foldl Permute.roundFn A (List.range 24) = B) :
    Permute.keccakf_1600_permute A = B := h

theorem range24_segments : List.range 24 =
    [0, 1, 2, 3] ++ ([4, 5, 6, 7] ++ ([8, 9, 10, 11] ++ ([12, 13, 14, 15] ++
      ([16, 17, 18, 19] ++ [20, 21, 22, 23])))) := by decide

theorem spongePermute_eval (bs L0 L24 out : List Nat)
    (hdec : bytesToLanes bs = L0)
    (hperm : Permute.keccakf_1600_permute L0 = L24)
    (henc : lanesToBytes L24 = out) :
    spongePermute bs = out := by
  unfold spongePermute
  rw [hdec, hperm, henc]

theorem keccakfB_eval (bs out : List Nat) (hv : ValidBytes bs)
    (hsp : spongePermute bs = out) :
    Keccak.keccakf_1600_state_permute bs = out := by
  rw [keccak_permute_eq_sponge_permute bs hv, hsp]

/-- Unfolded form of the permutation: the fold of the round body over the
round numbers. -/
theorem keccakf_unfold (A : List Nat) : Permute.keccakf_1600_permute A =
    (List.range Permute.ROUNDS).foldl Permute.roundFn A := rfl

/-- Unfolded form of the round body. -/
theorem roundFn_def (A : List Nat) (round : Nat) : Permute.roundFn A round =
    Permute.iota (Permute.chi (Permute.pi (Permute.rho (Permute.theta A)))) round := rfl

/-- Unfolded form of the byte view of the sponge permutation. -/
theorem spongePermute_def (bs : List Nat) : spongePermute bs =
    lanesToBytes (Permute.keccakf_1600_permute (bytesToLanes bs)) := rfl

attribute [irreducible] Permute.keccakf_1600_permute
attribute [irreducible] Keccak.keccakf_1600_state_permute
attribute [irreducible] spongePermute

/-! Evaluation helpers for single-block squeezing. -/

theorem squeeze_le (R n : Nat) (st : List Nat) (hR : 0 < R) (h0 : n ≠ 0)
    (hn : n ≤ R) :
    Sponge.squeeze R ⟨0, st⟩ n =
      (⟨n % R, spongePermute st⟩, (spongePermute st).take n) := by
  simp only [Sponge.squeeze, if_neg h0]
  norm_num
  rw [show min R n = n from by omega]
  norm_num

theorem keccakSqueeze_le (R n : Nat) (st : List Nat) (h0 : n ≠ 0) (hn : n ≤ R) :
    Keccak.keccakSqueeze R st n = some (st.take n) := by
  simp only [Keccak.keccakSqueeze, if_neg h0]
  rw [show min n R = n from by omega]
  simp

/-- The one-shot sponge of src/keccak.rs computes the same digest as the
incremental absorb / finish / squeeze pipeline of src/sponge.rs, for one
whole message, a rate of `R` bytes and a digest of `d` bytes. -/
theorem keccak_eq_incremental (R d : Nat) (hR : 0 < R) (hR200 : 8 * R ≤ 1600)
    (hd0 : 0 < d) (hdR : d ≤ R) (msg : List Nat) (hm : ∀ b ∈ msg, b < 256) :
    Keccak.keccak (8 * R) (1600 - 8 * R) msg d =
      some ((Sponge.squeeze R (Sponge.intoSqueeze R 6
        (Sponge.absorb R ⟨0, List.replicate 200 0⟩ msg)) d).2) := by
  have hcongr := foldl_stepByte_congr R msg hm (List.replicate 200 0) 0
    validBytes_replicate
  rw [Keccak.keccak, if_neg (by omega), if_neg (by simp [Nat.mul_mod_right])]
  simp only [show 8 * R / 8 = R from by omega]
  rw [keccakAbsorb_eq_foldl R hR msg (List.replicate 200 0)]
  rw [hcongr.1]
  simp only [Option.some_bind]
  rw [absorb_eq_foldl R hR ⟨0, List.replicate 200 0⟩ (by simpa using hR) msg]
  simp only [Sponge.intoSqueeze]
  rw [squeeze_le R d _ hR (by omega) hdR]
  rw [show Keccak.DELIMETED_SUFFIX = 6 from rfl]
  have hvalid1 := validBytes_set _ hcongr.2
    (List.foldl (stepByte spongePermute R) (List.replicate 200 0, 0) msg).2
    ((List.foldl (stepByte spongePermute R) (List.replicate 200 0, 0) msg).1.getD
      (List.foldl (stepByte spongePermute R) (List.replicate 200 0, 0) msg).2 0 ^^^ 6)
    (xor_lt_256 _ _ (getD_lt_256 _ hcongr.2.2 _) (by norm_num))
  have hvalid2 := validBytes_set _ hvalid1 (R - 1)
    (((List.foldl (stepByte spongePermute R) (List.replicate 200 0, 0) msg).1.set
      (List.foldl (stepByte spongePermute R) (List.replicate 200 0, 0) msg).2
      ((List.foldl (stepByte spongePermute R) (List.replicate 200 0, 0) msg).1.getD
        (List.foldl (stepByte spongePermute R) (List.replicate 200 0, 0) msg).2 0 ^^^ 6)).getD
      (R - 1) 0 ^^^ 128)
    (xor_lt_256 _ _ (getD_lt_256 _ hvalid1.2 _) (by norm_num))
  rw [keccak_permute_eq_sponge_permute _ hvalid2]
  rw [keccakSqueeze_le R d _ (by omega) hdR]
/-- Concrete evaluation of the lane permutation, four rounds at a time. -/
theorem permEval224 : Permute.keccakf_1600_permute [6, 0, 0, 0, 0, 0, 0, 0, 0, 0, 0, 0, 0, 0, 0, 0, 0, 9223372036854775808, 0, 0, 0, 0, 0, 0, 0] = [13248296211573853803, 12371685384987700795, 4579605686219921876, 5750447384277244507, 16145864480887887269, 285161391619374144, 6549578457606885866, 12127122688971091290, 17548848891622050045, 2710535715704979666, 8076577185584039800, 489990932699756033, 9746176525340216188, 5894643993143486169, 11579791447032160047, 16740569348369856386, 4001728545203005900, 2514717935965699485, 9009012204385015840, 6374836929829357566, 7944203004811313022, 17992420834474738130, 16885705793602113318, 18151538467719368164, 16249627974382805732] := by
  apply foldl_roundFn_24
  have h0 : List.foldl Permute.roundFn [6, 0, 0, 0, 0, 0, 0, 0, 0, 0, 0, 0, 0, 0, 0, 0, 0, 9223372036854775808, 0, 0, 0, 0, 0, 0, 0] [0, 1, 2, 3] = [16089531992960589542, 15710880386121238098, 9860303110146301016, 3361790473045143580, 4083327462330197502, 15424112951256619171, 14105042541746636386, 1251389878047709544, 2983726165454979797, 10885085388757192137, 5065451261786274953, 1970842846686241179, 14869521594730686061, 5286957303587932597, 7079459275736673048, 12264181616114545926, 2738771927634858809, 17305048629994020988, 4267957334909646627, 9450373592191870213, 11415713620500878863, 10354879716529464706, 7818318714601365783, 14843472169807182425, 17116234737894778437] := by decide
  have h1 : List.foldl Permute.roundFn [16089531992960589542, 15710880386121238098, 9860303110146301016, 3361790473045143580, 4083327462330197502, 15424112951256619171, 14105042541746636386, 1251389878047709544, 2983726165454979797, 10885085388757192137, 5065451261786274953, 1970842846686241179, 14869521594730686061, 5286957303587932597, 7079459275736673048, 12264181616114545926, 2738771927634858809, 17305048629994020988, 4267957334909646627, 9450373592191870213, 11415713620500878863, 10354879716529464706, 7818318714601365783, 14843472169807182425, 17116234737894778437] [4, 5, 6, 7] = [11699144969902711504, 7233303324448498948, 4779204380834588850, 1067466884635244914, 7312693273679384062, 13910207080148250558, 7196242097717109361, 5539438028543522956, 7688465630386991202, 14906962452166335303, 15960360644790029709, 12838145133775131718, 14313181208706635697, 16466498826614772582, 4803839524452313901, 9061108782542872084, 7183977092311103504, 16114484433828045707, 796687400838881880, 1190430441787844522, 14787392835195816604, 16593741716381496877, 15105724973551648678, 929412354585377804, 5993636230053627266] := by decide
  have h2 : List.foldl Permute.roundFn [11699144969902711504, 7233303324448498948, 4779204380834588850, 1067466884635244914, 7312693273679384062, 13910207080148250558, 7196242097717109361, 5539438028543522956, 7688465630386991202, 14906962452166335303, 15960360644790029709, 12838145133775131718, 14313181208706635697, 16466498826614772582, 4803839524452313901, 9061108782542872084, 7183977092311103504, 16114484433828045707, 796687400838881880, 1190430441787844522, 14787392835195816604, 16593741716381496877, 15105724973551648678, 929412354585377804, 5993636230053627266] [8, 9, 10, 11] = [16094341443950951859, 17823380198212545224, 2421225584909699804, 3990493836463802397, 14261257146355989286, 15025316595574330459, 5417051595223699489, 6671245442033593084, 4302766586432812326, 13742899498008128931, 11382072081800910472, 13324647711171147060, 5261780268524935199, 11399593189760130373, 18048284970200464321, 10043520711987605, 2215863903895608039, 1864745217800579332, 18041659317353092893, 11907687436448776096, 3107287337846868292, 5960185083297348, 1809886737286261809, 5090178660040726643, 8586766829096369093] := by decide
  have h3 : List.foldl Permute.roundFn [16094341443950951859, 17823380198212545224, 2421225584909699804, 3990493836463802397, 14261257146355989286, 15025316595574330459, 5417051595223699489, 6671245442033593084, 4302766586432812326, 13742899498008128931, 11382072081800910472, 13324647711171147060, 5261780268524935199, 11399593189760130373, 18048284970200464321, 10043520711987605, 2215863903895608039, 1864745217800579332, 18041659317353092893, 11907687436448776096, 3107287337846868292, 5960185083297348, 1809886737286261809, 5090178660040726643, 8586766829096369093] [12, 13, 14, 15] = [3907910203685089532, 12772000716974322776, 11601120438885000656, 4381547580112542970, 17993029540013379256, 10971830335426836120, 548202220989124062, 11412349281207131836, 18355165034324902438, 10888884675273816565, 16496132668970810172, 2736114483953250144, 1036859091501680817, 16241581256539346238, 18104439099055725591, 9989390452698729546, 12005543209691328713, 16191025575344646011, 18256261700119142435, 1017391684670737566, 14096033045404882050, 15674251350632300063, 11386833188535600022, 9107716814633043855, 11254856935445824808] := by decide
  have h4 : List.foldl Permute.roundFn [3907910203685089532, 12772000716974322776, 11601120438885000656, 4381547580112542970, 17993029540013379256, 10971830335426836120, 548202220989124062, 11412349281207131836, 18355165034324902438, 10888884675273816565, 16496132668970810172, 2736114483953250144, 1036859091501680817, 16241581256539346238, 18104439099055725591, 9989390452698729546, 12005543209691328713, 16191025575344646011, 18256261700119142435, 1017391684670737566, 14096033045404882050, 15674251350632300063, 11386833188535600022, 9107716814633043855, 11254856935445824808] [16, 17, 18, 19] = [8008257575475660111, 9756264755632681286, 6680196187195050133, 13096493057259790064, 4363144766569105535, 14828749793341850479, 11557632712413911904, 11552562063471407437, 9447497498504699894, 3159744823577978668, 16154461879312071132, 11506192052104166638, 1871866600585850298, 1393818892268255993, 17201372901804421695, 10038672590579579419, 8724240264842898105, 15977840823992892234, 10595587987236038933, 13734892037359010779, 1199502150280572847, 6013298234916570290, 256952370561204365, 9031848528057640250, 1226385370346865557] := by decide
  have h5 : List.foldl Permute.roundFn [8008257575475660111, 9756264755632681286, 6680196187195050133, 13096493057259790064, 4363144766569105535, 14828749793341850479, 11557632712413911904, 11552562063471407437, 9447497498504699894, 3159744823577978668, 16154461879312071132, 11506192052104166638, 1871866600585850298, 1393818892268255993, 17201372901804421695, 10038672590579579419, 8724240264842898105, 15977840823992892234, 10595587987236038933, 13734892037359010779, 1199502150280572847, 6013298234916570290, 256952370561204365, 9031848528057640250, 1226385370346865557] [20, 21, 22, 23] = [13248296211573853803, 12371685384987700795, 4579605686219921876, 5750447384277244507, 16145864480887887269, 285161391619374144, 6549578457606885866, 12127122688971091290, 17548848891622050045, 2710535715704979666, 8076577185584039800, 489990932699756033, 9746176525340216188, 5894643993143486169, 11579791447032160047, 16740569348369856386, 4001728545203005900, 2514717935965699485, 9009012204385015840, 6374836929829357566, 7944203004811313022, 17992420834474738130, 16885705793602113318, 18151538467719368164, 16249627974382805732] := by decide
  rw [range24_segments, List.foldl_append, h0, List.foldl_append, h1, List.foldl_append, h2,
    List.foldl_append, h3, List.foldl_append, h4, h5]

/-- Concrete evaluation of the lane permutation, four rounds at a time. -/
theorem permEval256 : Permute.keccakf_1600_permute [6, 0, 0, 0, 0, 0, 0, 0, 0, 0, 0, 0, 0, 0, 0, 0, 9223372036854775808, 0, 0, 0, 0, 0, 0, 0, 0] = [7410425521722818471, 7121987202003222865, 18035012034529034485, 5351394012144785538, 16353532546077582930, 18412783603198760294, 9284587722384849545, 2944999383351570747, 264653659749781196, 8654012947508770025, 14017358335954132601, 2407256339670638387, 2895390452210067295, 15095255416571082424, 17316587762701255502, 6013984437109885360, 14035109111570034974, 7163060779998355890, 15638812977766777522, 10466102270734619430, 3745926604053256215, 3130384482864979544, 1444385073371977593, 9616104016769313630, 10525877764722749669] := by
  apply foldl_roundFn_24
  have h0 : List.foldl Permute.roundFn [6, 0, 0, 0, 0, 0, 0, 0, 0, 0, 0, 0, 0, 0, 0, 0, 9223372036854775808, 0, 0, 0, 0, 0, 0, 0, 0] [0, 1, 2, 3] = [15141175966612988327, 2811120689499900759, 11114100545166816687, 7401400964662830361, 6232462294087722309, 3614180754878935073, 5648002433467231421, 7009123261538099929, 1716890418596667384, 14511298500469249561, 15283940080179397585, 9989382635619495920, 937459922293619879, 8981882729516647823, 3386847015272139052, 481296894432185766, 8885025559349745310, 7171340211368648636, 5917241201410479105, 5661396649289965995, 4821051204577364616, 16569583188564772284, 3133563092308647349, 17150297471106504953, 8032340144727259658] := by decide
  have h1 : List.foldl Permute.roundFn [15141175966612988327, 2811120689499900759, 11114100545166816687, 7401400964662830361, 6232462294087722309, 3614180754878935073, 5648002433467231421, 7009123261538099929, 1716890418596667384, 14511298500469249561, 15283940080179397585, 9989382635619495920, 937459922293619879, 8981882729516647823, 3386847015272139052, 481296894432185766, 8885025559349745310, 7171340211368648636, 5917241201410479105, 5661396649289965995, 4821051204577364616, 16569583188564772284, 3133563092308647349, 17150297471106504953, 8032340144727259658] [4, 5, 6, 7] = [6114521045674717037, 15181290453074070070, 17891185306074564926, 2549163076349223088, 17549925749519462163, 13962721195783924970, 10443705000508482690, 8589638385490812688, 10452854429505555658, 12499297835512808069, 18372764901130299841, 3998040805747818026, 4307666463042423, 13816793777504620786, 13411460217587426191, 9965634214507540912, 4659483994365582484, 11331341493541387439, 17561027583800324221, 9723734343446832598, 3608471497335427630, 4087729293439878438, 8370874310890832543, 8792386813569904573, 14113247970300762112] := by decide
  have h2 : List.foldl Permute.roundFn [6114521045674717037, 15181290453074070070, 17891185306074564926, 2549163076349223088, 17549925749519462163, 13962721195783924970, 10443705000508482690, 8589638385490812688, 10452854429505555658, 12499297835512808069, 18372764901130299841, 3998040805747818026, 4307666463042423, 13816793777504620786, 13411460217587426191, 9965634214507540912, 4659483994365582484, 11331341493541387439, 17561027583800324221, 9723734343446832598, 3608471497335427630, 4087729293439878438, 8370874310890832543, 8792386813569904573, 14113247970300762112] [8, 9, 10, 11] = [4729393192707380424, 7591824700066759546, 17544553718926292483, 8339471234579998402, 10743143294245820878, 2620215451244494019, 11466054108966740848, 1055145236959410888, 6396065552505458715, 11536501075570233788, 1386363097019973212, 13209845398898596921, 10728344661463241791, 5890439172248547366, 17621958197294309238, 1390514054955117465, 2345733533203625698, 8860789452422830983, 11138704127254802281, 13580834561560196003, 8852701050564364688, 642396674773979280, 9254161997943102671, 9133671768421447062, 10912630983952297666] := by decide
  have h3 : List.foldl Permute.roundFn [4729393192707380424, 7591824700066759546, 17544553718926292483, 8339471234579998402, 10743143294245820878, 2620215451244494019, 11466054108966740848, 1055145236959410888, 6396065552505458715, 11536501075570233788, 1386363097019973212, 13209845398898596921, 10728344661463241791, 5890439172248547366, 17621958197294309238, 1390514054955117465, 2345733533203625698, 8860789452422830983, 11138704127254802281, 13580834561560196003, 8852701050564364688, 642396674773979280, 9254161997943102671, 9133671768421447062, 10912630983952297666] [12, 13, 14, 15] = [1295751329840695454, 1005490707201130717, 6432783994288054808, 10121776569182286006, 2297476227516198853, 4032739120144180223, 18262008750694485300, 3849550897658026116, 6983386734678829278, 9877125533036621580, 1337496561326242733, 11845833123478414774, 14270079903743973895, 1804554681679642271, 7800033024233434117, 10326487324285663649, 2195731705048616001, 9708100042545295, 9174225570753277791, 14793378180723657561, 16659781755597677711, 9444567218070540243, 7488402473167214614, 18340121190816810025, 8219370627089695339] := by decide
  have h4 : List.foldl Permute.roundFn [1295751329840695454, 1005490707201130717, 6432783994288054808, 10121776569182286006, 2297476227516198853, 4032739120144180223, 18262008750694485300, 3849550897658026116, 6983386734678829278, 9877125533036621580, 1337496561326242733, 11845833123478414774, 14270079903743973895, 1804554681679642271, 7800033024233434117, 10326487324285663649, 2195731705048616001, 9708100042545295, 9174225570753277791, 14793378180723657561, 16659781755597677711, 9444567218070540243, 7488402473167214614, 18340121190816810025, 8219370627089695339] [16, 17, 18, 19] = [7578844865377949688, 472432247403523168, 4323483413409182891, 592217480219695535, 5173118473362708599, 10766064559682528136, 14203979025860766567, 4776230210808636643, 2246726256492803966, 12751087775147523, 10236306726795139332, 15149711357880901710, 11804272076390253286, 14283204544786045927, 4035832802016551817, 17585464579386257995, 7727659267235659667, 9336188800439084940, 16098945733937515209, 7513444675014778986, 12175521308642724376, 7464408282534712050, 2563692772629727908, 1682644691081685455, 18218878070865175085] := by decide
  have h5 : List.foldl Permute.roundFn [7578844865377949688, 472432247403523168, 4323483413409182891, 592217480219695535, 5173118473362708599, 10766064559682528136, 14203979025860766567, 4776230210808636643, 2246726256492803966, 12751087775147523, 10236306726795139332, 15149711357880901710, 11804272076390253286, 14283204544786045927, 4035832802016551817, 17585464579386257995, 7727659267235659667, 9336188800439084940, 16098945733937515209, 7513444675014778986, 12175521308642724376, 7464408282534712050, 2563692772629727908, 1682644691081685455, 18218878070865175085] [20, 21, 22, 23] = [7410425521722818471, 7121987202003222865, 18035012034529034485, 5351394012144785538, 16353532546077582930, 18412783603198760294, 9284587722384849545, 2944999383351570747, 264653659749781196, 8654012947508770025, 14017358335954132601, 2407256339670638387, 2895390452210067295, 15095255416571082424, 17316587762701255502, 6013984437109885360, 14035109111570034974, 7163060779998355890, 15638812977766777522, 10466102270734619430, 3745926604053256215, 3130384482864979544, 1444385073371977593, 9616104016769313630, 10525877764722749669] := by decide
  rw [range24_segments, List.foldl_append, h0, List.foldl_append, h1, List.foldl_append, h2,
    List.foldl_append, h3, List.foldl_append, h4, h5]

/-- Concrete evaluation of the lane permutation, four rounds at a time. -/
theorem permEval384 : Permute.keccakf_1600_permute [6, 0, 0, 0, 0, 0, 0, 0, 0, 0, 0, 0, 9223372036854775808, 0, 0, 0, 0, 0, 0, 0, 0, 0, 0, 0, 0] = [9029539700467524364, 9593876868897771521, 7060681776532822725, 3042912649356598937, 5177813724487512515, 356018948267928571, 7536480682258498851, 14321457147751456030, 14722223576429906197, 12697634849844555817, 991669430430099301, 13798106869645926711, 13453472951333603281, 14595290781660357943, 15647273321533517219, 10021008910189764300, 16308450265383023024, 12374936922029118811, 16400276739299077711, 9230399586471474293, 3228212618445341758, 12205561236767312828, 9115403420243572004, 8941267229120766078, 2057742569883681471] := by
  apply foldl_roundFn_24
  have h0 : List.foldl Permute.roundFn [6, 0, 0, 0, 0, 0, 0, 0, 0, 0, 0, 0, 9223372036854775808, 0, 0, 0, 0, 0, 0, 0, 0, 0, 0, 0, 0] [0, 1, 2, 3] = [17055040555686600914, 1577655125553745917, 14138393405330687831, 1409537237958610180, 1390493583695385875, 16339255978052768050, 4564071859352872968, 241798987226196238, 16911039244571448232, 2366329416895482671, 15401001640030924867, 137980584639206131, 16553083344090656548, 13621355334734851868, 7133612775227427844, 18216095113665624778, 353693943050555245, 15891210286564233847, 11255209489767124007, 898113878739867522, 9195133930020504611, 586560185230169060, 5951445490669434407, 17781959618457931133, 16723422196239233712] := by decide
  have h1 : List.foldl Permute.roundFn [17055040555686600914, 1577655125553745917, 14138393405330687831, 1409537237958610180, 1390493583695385875, 16339255978052768050, 4564071859352872968, 241798987226196238, 16911039244571448232, 2366329416895482671, 15401001640030924867, 137980584639206131, 16553083344090656548, 13621355334734851868, 7133612775227427844, 18216095113665624778, 353693943050555245, 15891210286564233847, 11255209489767124007, 898113878739867522, 9195133930020504611, 586560185230169060, 5951445490669434407, 17781959618457931133, 16723422196239233712] [4, 5, 6, 7] = [10564664266687330614, 3671776811924101753, 3266763844247334100, 3370999563520975209, 15203524688459291652, 12020417125665229425, 8782913071649707731, 6188543661702313159, 2604176900436928150, 1972905886322516327, 11126327728019202098, 15223072566640988446, 17968016005109243625, 4277078725713791747, 11244644983942182062, 11198831284189633083, 4975676191157297370, 6640583117725660314, 11350818028578598309, 6635679796298273285, 13582320765736601905, 3208723304027042429, 9761270132456810367, 18351681909725712628, 15771150562807624222] := by decide
  have h2 : List.foldl Permute.roundFn [10564664266687330614, 3671776811924101753, 3266763844247334100, 3370999563520975209, 15203524688459291652, 12020417125665229425, 8782913071649707731, 6188543661702313159, 2604176900436928150, 1972905886322516327, 11126327728019202098, 15223072566640988446, 17968016005109243625, 4277078725713791747, 11244644983942182062, 11198831284189633083, 4975676191157297370, 6640583117725660314, 11350818028578598309, 6635679796298273285, 13582320765736601905, 3208723304027042429, 9761270132456810367, 18351681909725712628, 15771150562807624222] [8, 9, 10, 11] = [10513911410549116904, 14324171022121822880, 7322809724178713105, 11754354946617711019, 8697598810736823947, 6471335973456168387, 13367174127872658185, 11326379129939579259, 6537956625944898404, 12750119807968621240, 4171807488062016893, 8069150785482855092, 7870491274271590488, 7526334529736582723, 17186795270470604500, 16540442552140570105, 1354487941423572627, 16044469719529175613, 1171368708978706992, 14368552895337113779, 15793326919487392538, 2082665360266997395, 8585421318610352613, 4511357122310222998, 11923432572500087882] := by decide
  have h3 : List.foldl Permute.roundFn [10513911410549116904, 14324171022121822880, 7322809724178713105, 11754354946617711019, 8697598810736823947, 6471335973456168387, 13367174127872658185, 11326379129939579259, 6537956625944898404, 12750119807968621240, 4171807488062016893, 8069150785482855092, 7870491274271590488, 7526334529736582723, 17186795270470604500, 16540442552140570105, 1354487941423572627, 16044469719529175613, 1171368708978706992, 14368552895337113779, 15793326919487392538, 2082665360266997395, 8585421318610352613, 4511357122310222998, 11923432572500087882] [12, 13, 14, 15] = [16642606506372591725, 14249667682858412819, 11972301813089752397, 5538092238645894032, 5092581398324574926, 18062435479782201526, 16258185576308390214, 12479009077932624153, 14241452385716024257, 4351236939457665896, 5982350066312660033, 12097469035988508928, 8425688346935265480, 16428749664102399073, 2647050851384872179, 1444547662497844052, 6598720302519518902, 7048479893178572400, 1853795057987307014, 4011175361023252739, 4560842295303611466, 5989053012905161279, 7948617264656858699, 329305824260361720, 7446897408196315422] := by decide
  have h4 : List.foldl Permute.roundFn [16642606506372591725, 14249667682858412819, 11972301813089752397, 5538092238645894032, 5092581398324574926, 18062435479782201526, 16258185576308390214, 12479009077932624153, 14241452385716024257, 4351236939457665896, 5982350066312660033, 12097469035988508928, 8425688346935265480, 16428749664102399073, 2647050851384872179, 1444547662497844052, 6598720302519518902, 7048479893178572400, 1853795057987307014, 4011175361023252739, 4560842295303611466, 5989053012905161279, 7948617264656858699, 329305824260361720, 7446897408196315422] [16, 17, 18, 19] = [10902766392106206502, 13891935246939037012, 4607104065760763621, 1048915196003401462, 420571477606118829, 4308477826785855010, 17663793112215680803, 10138200789233276906, 96688462311799997, 12111454477388921355, 2200515936588078758, 16795226686167955218, 12527273829727458338, 1041980862586630229, 15635525976080719664, 8946994138079251683, 7764236293784347186, 13016327158778178366, 4689165052980963759, 15716542453194830299, 7803949435652069021, 4513017437680367477, 5854517170311377665, 12804446487681929916, 3343238260044925696] := by decide
  have h5 : List.foldl Permute.roundFn [10902766392106206502, 13891935246939037012, 4607104065760763621, 1048915196003401462, 420571477606118829, 4308477826785855010, 17663793112215680803, 10138200789233276906, 96688462311799997, 12111454477388921355, 2200515936588078758, 16795226686167955218, 12527273829727458338, 1041980862586630229, 15635525976080719664, 8946994138079251683, 7764236293784347186, 13016327158778178366, 4689165052980963759, 15716542453194830299, 7803949435652069021, 4513017437680367477, 5854517170311377665, 12804446487681929916, 3343238260044925696] [20, 21, 22, 23] = [9029539700467524364, 9593876868897771521, 7060681776532822725, 3042912649356598937, 5177813724487512515, 356018948267928571, 7536480682258498851, 14321457147751456030, 14722223576429906197, 12697634849844555817, 991669430430099301, 13798106869645926711, 13453472951333603281, 14595290781660357943, 15647273321533517219, 10021008910189764300, 16308450265383023024, 12374936922029118811, 16400276739299077711, 9230399586471474293, 3228212618445341758, 12205561236767312828, 9115403420243572004, 8941267229120766078, 2057742569883681471] := by decide
  rw [range24_segments, List.foldl_append, h0, List.foldl_append, h1, List.foldl_append, h2,
    List.foldl_append, h3, List.foldl_append, h4, h5]

/-- Concrete evaluation of the lane permutation, four rounds at a time. -/
theorem permEval512 : Permute.keccakf_1600_permute [6, 0, 0, 0, 0, 0, 0, 0, 9223372036854775808, 0, 0, 0, 0, 0, 0, 0, 0, 0, 0, 0, 0, 0, 0, 0, 0] = [14238757642774486950, 7959366979270718920, 6438144496634087831, 11997690870579909088, 5546734832493703701, 6396582807491699473, 16416665820397633781, 2795923003559736577, 13282117951445879606, 48870950907141411, 930731779054599654, 14244171329421887971, 7348615728317000581, 16386155042046134777, 564113939863501332, 9839499651820051713, 668451180115349340, 6218143520840299963, 14806252864250434341, 11447972881830101732, 1740256796205918954, 3116002073021387166, 8545309210240737294, 1848899012907195869, 17210406637760236757] := by
  apply foldl_roundFn_24
  have h0 : List.foldl Permute.roundFn [6, 0, 0, 0, 0, 0, 0, 0, 9223372036854775808, 0, 0, 0, 0, 0, 0, 0, 0, 0, 0, 0, 0, 0, 0, 0, 0] [0, 1, 2, 3] = [1970755580115361202, 8189026104487792223, 16817488986471591303, 1913566410753251784, 5548452070103094548, 964612104603248791, 17580305984064397562, 17299276613565616164, 17964981319719758661, 2517670687445474400, 12802899976967048960, 4119513840130496123, 14513957176636319973, 9895644811305716925, 6497129768858236949, 14987207867351969630, 7498544242806441679, 259750166632485187, 7838805020668905361, 15091897548646969888, 11707349948514964044, 13097458726856813305, 6366995687414673263, 6174856335244173215, 5874239325243480181] := by decide
  have h1 : List.foldl Permute.roundFn [1970755580115361202, 8189026104487792223, 16817488986471591303, 1913566410753251784, 5548452070103094548, 964612104603248791, 17580305984064397562, 17299276613565616164, 17964981319719758661, 2517670687445474400, 12802899976967048960, 4119513840130496123, 14513957176636319973, 9895644811305716925, 6497129768858236949, 14987207867351969630, 7498544242806441679, 259750166632485187, 7838805020668905361, 15091897548646969888, 11707349948514964044, 13097458726856813305, 6366995687414673263, 6174856335244173215, 5874239325243480181] [4, 5, 6, 7] = [5070274326119827058, 12648004654289709838, 12899015270539515014, 10489281899925131118, 17966630267251241110, 4204404281901628763, 15907137131905725995, 15014728555862748921, 6218941965560589451, 13384355020801410681, 955696060108577896, 131614478812981930, 5577722349544798461, 8765958386679238887, 2339883753701238250, 8178815037059174524, 11796153946948153260, 5520062787668436822, 9410953440819282757, 17450457342555570991, 14132789415415299656, 16776631305779140136, 7268083991537968354, 2900528540396493408, 4543572395196585191] := by decide
  have h2 : List.foldl Permute.roundFn [5070274326119827058, 12648004654289709838, 12899015270539515014, 10489281899925131118, 17966630267251241110, 4204404281901628763, 15907137131905725995, 15014728555862748921, 6218941965560589451, 13384355020801410681, 955696060108577896, 131614478812981930, 5577722349544798461, 8765958386679238887, 2339883753701238250, 8178815037059174524, 11796153946948153260, 5520062787668436822, 9410953440819282757, 17450457342555570991, 14132789415415299656, 16776631305779140136, 7268083991537968354, 2900528540396493408, 4543572395196585191] [8, 9, 10, 11] = [14576777222097789365, 1453044125585839056, 15313442895121825463, 7074072193323622856, 8536629561992342824, 1870090483475452037, 1478943963165388746, 13123969250063708838, 7872478936980815503, 1105025627121439655, 6996177515777891338, 11561438486223784215, 14168235569193581058, 9661599977899780039, 7552182042653732572, 3961657513889109216, 14695439366928913346, 12020484486653182517, 7326174491469743770, 6965436863245711624, 158573711213097664, 16951085946040592989, 3291244417991148531, 10188625976478158403, 16578651037179050216] := by decide
  have h3 : List.foldl Permute.roundFn [14576777222097789365, 1453044125585839056, 15313442895121825463, 7074072193323622856, 8536629561992342824, 1870090483475452037, 1478943963165388746, 13123969250063708838, 7872478936980815503, 1105025627121439655, 6996177515777891338, 11561438486223784215, 14168235569193581058, 9661599977899780039, 7552182042653732572, 3961657513889109216, 14695439366928913346, 12020484486653182517, 7326174491469743770, 6965436863245711624, 158573711213097664, 16951085946040592989, 3291244417991148531, 10188625976478158403, 16578651037179050216] [12, 13, 14, 15] = [15925960478540134081, 6425222999014437755, 4751991447311852308, 13906897866483885733, 11628139582577297962, 18081046738930533979, 10585376180708913084, 10401695772836802022, 7015959878692411862, 15541044297052390138, 15197317104932216777, 2190818963595026215, 11920696050210274174, 5527233492045988509, 8854418080835109124, 16434871343864690949, 5359750870054840443, 4568481022231142413, 2635981377110958613, 6680679366005029281, 4991319799514900868, 1021304114876744372, 12721988903515553986, 9980180630315734743, 14769341276836536478] := by decide
  have h4 : List.foldl Permute.roundFn [15925960478540134081, 6425222999014437755, 4751991447311852308, 13906897866483885733, 11628139582577297962, 18081046738930533979, 10585376180708913084, 10401695772836802022, 7015959878692411862, 15541044297052390138, 15197317104932216777, 2190818963595026215, 11920696050210274174, 5527233492045988509, 8854418080835109124, 16434871343864690949, 5359750870054840443, 4568481022231142413, 2635981377110958613, 6680679366005029281, 4991319799514900868, 1021304114876744372, 12721988903515553986, 9980180630315734743, 14769341276836536478] [16, 17, 18, 19] = [3816834899127023287, 18377192631423965143, 10812771882441023433, 2381997600266847076, 6185730374556012970, 5032457615121324037, 9347267915389323207, 15816407286616339977, 10665295380579086445, 8829132463603355072, 17212247383878484421, 15878191318978477961, 9036994517085413776, 3869188511962148065, 1616902144003133942, 13521532410281790817, 17191974769781380834, 9730032355425186663, 7103965275085780188, 11153473483733259864, 2901482368820136916, 15448087335785852369, 14211163950160495026, 10930702584383363844, 4101117748504236378] := by decide
  have h5 : List.foldl Permute.roundFn [3816834899127023287, 18377192631423965143, 10812771882441023433, 2381997600266847076, 6185730374556012970, 5032457615121324037, 9347267915389323207, 15816407286616339977, 10665295380579086445, 8829132463603355072, 17212247383878484421, 15878191318978477961, 9036994517085413776, 3869188511962148065, 1616902144003133942, 13521532410281790817, 17191974769781380834, 9730032355425186663, 7103965275085780188, 11153473483733259864, 2901482368820136916, 15448087335785852369, 14211163950160495026, 10930702584383363844, 4101117748504236378] [20, 21, 22, 23] = [14238757642774486950, 7959366979270718920, 6438144496634087831, 11997690870579909088, 5546734832493703701, 6396582807491699473, 16416665820397633781, 2795923003559736577, 13282117951445879606, 48870950907141411, 930731779054599654, 14244171329421887971, 7348615728317000581, 16386155042046134777, 564113939863501332, 9839499651820051713, 668451180115349340, 6218143520840299963, 14806252864250434341, 11447972881830101732, 1740256796205918954, 3116002073021387166, 8545309210240737294, 1848899012907195869, 17210406637760236757] := by decide
  rw [range24_segments, List.foldl_append, h0, List.foldl_append, h1, List.foldl_append, h2,
    List.foldl_append, h3, List.foldl_append, h4, h5]

/-- Concrete evaluation of the lane permutation, four rounds at a time. -/
theorem permEvalB2 : Permute.keccakf_1600_permute [7410425521722818471, 7121987202003222865, 18035012034529034485, 5351394012144785538, 16353532546077582930, 18412783603198760294, 9284587722384849545, 2944999383351570747, 264653659749781196, 8654012947508770025, 14017358335954132601, 2407256339670638387, 2895390452210067295, 15095255416571082424, 17316587762701255502, 6013984437109885360, 14035109111570034974, 7163060779998355890, 15638812977766777522, 10466102270734619430, 3745926604053256215, 3130384482864979544, 1444385073371977593, 9616104016769313630, 10525877764722749669] = [12215242494450647784, 8064744118420472859, 15342749948394292279, 17792574681461044403, 13780079531728389762, 4784926132487472273, 4479340876896329718, 9981564073935064771, 7598798375666015552, 12580023488715943924, 15666151913453231754, 10083485145390881524, 6881683478854114556, 7077742444023410909, 9670709069910674003, 2314774391143152193, 1189364554168976161, 1154813040685664552, 14534771081664621713, 4952935425103421420, 659576103045706486, 13377703722833924751, 3474544344535718509, 6733728066585356756, 15757689113409394135] := by
  apply foldl_roundFn_24
  have h0 : List.foldl Permute.roundFn [7410425521722818471, 7121987202003222865, 18035012034529034485, 5351394012144785538, 16353532546077582930, 18412783603198760294, 9284587722384849545, 2944999383351570747, 264653659749781196, 8654012947508770025, 14017358335954132601, 2407256339670638387, 2895390452210067295, 15095255416571082424, 17316587762701255502, 6013984437109885360, 14035109111570034974, 7163060779998355890, 15638812977766777522, 10466102270734619430, 3745926604053256215, 3130384482864979544, 1444385073371977593, 9616104016769313630, 10525877764722749669] [0, 1, 2, 3] = [644384533364638940, 15525752274802274017, 6853377042079819700, 17455650185577809550, 6363284629360807164, 4967636172152580628, 13215908060113096293, 8363171582926100494, 9333997323090306446, 15993451280071910954, 15883762248484100347, 17964997855373703783, 14339037963974688911, 4651431197033718965, 175465388436661052, 15842869146292092980, 11375226610219624147, 10414886640006092779, 2375732263017681354, 2605997995538856750, 5431730960641587119, 3739373711183557325, 9352889033337547814, 14641314431137854844, 17997680114982953502] := by decide
  have h1 : List.foldl Permute.roundFn [644384533364638940, 15525752274802274017, 6853377042079819700, 17455650185577809550, 6363284629360807164, 4967636172152580628, 13215908060113096293, 8363171582926100494, 9333997323090306446, 15993451280071910954, 15883762248484100347, 17964997855373703783, 14339037963974688911, 4651431197033718965, 175465388436661052, 15842869146292092980, 11375226610219624147, 10414886640006092779, 2375732263017681354, 2605997995538856750, 5431730960641587119, 3739373711183557325, 9352889033337547814, 14641314431137854844, 17997680114982953502] [4, 5, 6, 7] = [3819033036891547664, 18072942637235021476, 3094349055626733134, 12151598011763788957, 8663215320367210707, 7320075998977276755, 15564424714313868007, 3941952447479806779, 3076593079779718580, 6852818746368242058, 13846902107873401083, 16827447205345446212, 3751886099531723841, 4903988644382195920, 13193028530303129913, 14825230429338675373, 11415646974646823307, 17607763293151102126, 6412395858116141894, 17874862184110440255, 16605835243449280159, 8991284388747130889, 14986100579406137791, 335380983436973359, 10926729045541302166] := by decide
  have h2 : List.foldl Permute.roundFn [3819033036891547664, 18072942637235021476, 3094349055626733134, 12151598011763788957, 8663215320367210707, 7320075998977276755, 15564424714313868007, 3941952447479806779, 3076593079779718580, 6852818746368242058, 13846902107873401083, 16827447205345446212, 3751886099531723841, 4903988644382195920, 13193028530303129913, 14825230429338675373, 11415646974646823307, 17607763293151102126, 6412395858116141894, 17874862184110440255, 16605835243449280159, 8991284388747130889, 14986100579406137791, 335380983436973359, 10926729045541302166] [8, 9, 10, 11] = [10709666477214299108, 15560305670958184390, 5278009031717427426, 1772283150247122252, 828911761294154175, 10493648275895202403, 2369365625739315395, 2429465912376555342, 4470530771166633435, 5276552883183371717, 15050625964539322133, 9713616945581538053, 17099978141809330216, 1319309107088664755, 16906335003521210595, 10416827217830911820, 5092598441084578138, 4721642381471342430, 16547335205776582533, 3679034990058308908, 8571424777310649658, 9901370097522520240, 17516434208247146978, 7020090244111218647, 6066329275654075826] := by decide
  have h3 : List.foldl Permute.roundFn [10709666477214299108, 15560305670958184390, 5278009031717427426, 1772283150247122252, 828911761294154175, 10493648275895202403, 2369365625739315395, 2429465912376555342, 4470530771166633435, 5276552883183371717, 15050625964539322133, 9713616945581538053, 17099978141809330216, 1319309107088664755, 16906335003521210595, 10416827217830911820, 5092598441084578138, 4721642381471342430, 16547335205776582533, 3679034990058308908, 8571424777310649658, 9901370097522520240, 17516434208247146978, 7020090244111218647, 6066329275654075826] [12, 13, 14, 15] = [14847441378091483876, 10570277293210465708, 12255058212201403712, 503531701026656910, 5452291281990048086, 9530078048678116252, 1104856073471529783, 13424819001352269046, 14188096658236084834, 3399794100536322186, 3765643083360611878, 7160738733994988846, 737974283106991615, 13372912949306705921, 5505294010925970646, 10712627426316766713, 10845902263427739415, 2053500671606853523, 11875433470227579062, 9468488305960340703, 5901858357253363363, 10566785732422018971, 11427401533925613034, 6760782815934120003, 3805110635411136946] := by decide
  have h4 : List.foldl Permute.roundFn [14847441378091483876, 10570277293210465708, 12255058212201403712, 503531701026656910, 5452291281990048086, 9530078048678116252, 1104856073471529783, 13424819001352269046, 14188096658236084834, 3399794100536322186, 3765643083360611878, 7160738733994988846, 737974283106991615, 13372912949306705921, 5505294010925970646, 10712627426316766713, 10845902263427739415, 2053500671606853523, 11875433470227579062, 9468488305960340703, 5901858357253363363, 10566785732422018971, 11427401533925613034, 6760782815934120003, 3805110635411136946] [16, 17, 18, 19] = [7740107258458376687, 4657230553332125929, 4316301664407444056, 3611069096774091688, 11475128624590092624, 1061793911740527480, 13994300833731257827, 15875285659651727648, 4063739467594142152, 8664975768275152182, 2742484412842072850, 654040038569974239, 6561073187701889495, 11980987552878649863, 9324078800187306210, 7994568036440142604, 8167535133905653783, 14430431469548976860, 17595279206799027892, 12007004497721757689, 5242115679865588997, 744435176024921718, 8334198741719444794, 16024989832721831296, 14412966006776687063] := by decide
  have h5 : List.foldl Permute.roundFn [7740107258458376687, 4657230553332125929, 4316301664407444056, 3611069096774091688, 11475128624590092624, 1061793911740527480, 13994300833731257827, 15875285659651727648, 4063739467594142152, 8664975768275152182, 2742484412842072850, 654040038569974239, 6561073187701889495, 11980987552878649863, 9324078800187306210, 7994568036440142604, 8167535133905653783, 14430431469548976860, 17595279206799027892, 12007004497721757689, 5242115679865588997, 744435176024921718, 8334198741719444794, 16024989832721831296, 14412966006776687063] [20, 21, 22, 23] = [12215242494450647784, 8064744118420472859, 15342749948394292279, 17792574681461044403, 13780079531728389762, 4784926132487472273, 4479340876896329718, 9981564073935064771, 7598798375666015552, 12580023488715943924, 15666151913453231754, 10083485145390881524, 6881683478854114556, 7077742444023410909, 9670709069910674003, 2314774391143152193, 1189364554168976161, 1154813040685664552, 14534771081664621713, 4952935425103421420, 659576103045706486, 13377703722833924751, 3474544344535718509, 6733728066585356756, 15757689113409394135] := by decide
  rw [range24_segments, List.foldl_append, h0, List.foldl_append, h1, List.foldl_append, h2,
    List.foldl_append, h3, List.foldl_append, h4, h5]
theorem keccak_nil_eval (rate capacity outLen : Nat) (padded out : List Nat)
    (h16 : rate + capacity = 1600) (h8 : rate % 8 = 0)
    (hpad : ((List.replicate 200 0).set 0
        ((List.replicate 200 0).getD 0 0 ^^^ Keccak.DELIMETED_SUFFIX)).set
        (rate / 8 - 1) (((List.replicate 200 0).set 0
          ((List.replicate 200 0).getD 0 0 ^^^ Keccak.DELIMETED_SUFFIX)).getD
          (rate / 8 - 1) 0 ^^^ 0b10000000) = padded)
    (hperm : Keccak.keccakf_1600_state_permute padded = out) :
    Keccak.keccak rate capacity [] outLen =
      Keccak.keccakSqueeze (rate / 8) out outLen := by
  rw [Keccak.keccak, if_neg (by omega), if_neg (by omega)]
  simp only [keccakAbsorb_nil, Option.some_bind]
  rw [hpad, hperm]


/-- The SHA3-224 digest of the empty message, computed through the
one-shot path of src/keccak.rs. -/
theorem sha3_224_empty : sha3_224 [] = some [107, 78, 3, 66, 54, 103, 219, 183, 59, 110, 21, 69, 79, 14, 177, 171, 212, 89, 127, 154, 27, 7, 142, 63, 91, 90, 107, 199] := by
  show Keccak.keccak (1600 - 224 * 2) (224 * 2) [] 28 = _
  rw [keccak_nil_eval (1600 - 224 * 2) (224 * 2) 28
    ((List.replicate 200 0).set 0 6 |>.set 143 128) [107, 78, 3, 66, 54, 103, 219, 183, 59, 110, 21, 69, 79, 14, 177, 171, 212, 89, 127, 154, 27, 7, 142, 63, 91, 90, 107, 199, 109, 177, 205, 79, 165, 85, 235, 110, 51, 162, 17, 224, 64, 252, 32, 91, 198, 24, 245, 3, 234, 145, 53, 242, 231, 198, 228, 90, 90, 173, 179, 87, 213, 49, 76, 168, 253, 200, 35, 210, 22, 9, 138, 243, 210, 192, 154, 85, 223, 193, 157, 37, 120, 199, 194, 163, 40, 196, 21, 112, 1, 54, 187, 62, 40, 204, 204, 6, 124, 139, 39, 143, 233, 95, 65, 135, 217, 38, 181, 8, 123, 251, 205, 81, 47, 95, 117, 253, 247, 174, 179, 160, 130, 183, 96, 131, 32, 115, 82, 232, 204, 169, 93, 232, 232, 254, 136, 55, 157, 253, 137, 163, 163, 18, 230, 34, 32, 24, 135, 59, 222, 112, 6, 125, 254, 71, 133, 143, 105, 248, 119, 88, 126, 127, 94, 237, 138, 122, 63, 110, 210, 65, 52, 200, 107, 235, 177, 249, 38, 207, 104, 121, 244, 19, 86, 234, 228, 77, 64, 191, 16, 56, 231, 251, 228, 98, 86, 105, 140, 70, 130, 225]
    (by norm_num) (by norm_num) (by decide)
    (keccakfB_eval _ _ ⟨by decide, by decide⟩
      (spongePermute_eval _ _ _ _ (by decide) permEval224 (by decide)))]
  decide


/-- The SHA3-256 digest of the empty message, computed through the
one-shot path of src/keccak.rs. -/
theorem sha3_256_empty : sha3_256 [] = some [167, 255, 198, 248, 191, 30, 215, 102, 81, 193, 71, 86, 160, 97, 214, 98, 245, 128, 255, 77, 228, 59, 73, 250, 130, 216, 10, 75, 128, 248, 67, 74] := by
  show Keccak.keccak (1600 - 256 * 2) (256 * 2) [] 32 = _
  rw [keccak_nil_eval (1600 - 256 * 2) (256 * 2) 32
    ((List.replicate 200 0).set 0 6 |>.set 135 128) [167, 255, 198, 248, 191, 30, 215, 102, 81, 193, 71, 86, 160, 97, 214, 98, 245, 128, 255, 77, 228, 59, 73, 250, 130, 216, 10, 75, 128, 248, 67, 74, 82, 102, 190, 183, 52, 107, 243, 226, 102, 149, 204, 202, 33, 89, 135, 255, 137, 186, 179, 118, 87, 123, 217, 128, 59, 49, 106, 252, 85, 189, 222, 40, 204, 142, 228, 241, 25, 61, 172, 3, 233, 52, 228, 193, 236, 58, 25, 120, 121, 30, 232, 175, 35, 169, 135, 194, 51, 31, 96, 1, 227, 74, 104, 33, 95, 231, 9, 158, 70, 126, 46, 40, 184, 182, 130, 194, 210, 30, 125, 209, 78, 67, 175, 173, 210, 224, 80, 240, 176, 137, 169, 106, 251, 246, 117, 83, 30, 241, 250, 50, 96, 185, 198, 194, 178, 161, 85, 240, 211, 77, 104, 99, 178, 194, 142, 152, 139, 57, 8, 217, 38, 211, 11, 62, 144, 16, 63, 145, 23, 152, 71, 77, 102, 52, 252, 51, 88, 222, 143, 7, 26, 92, 113, 43, 121, 151, 54, 81, 146, 124, 11, 20, 94, 235, 189, 170, 167, 67, 115, 133, 229, 112, 123, 251, 14, 110, 19, 146]
    (by norm_num) (by norm_num) (by decide)
    (keccakfB_eval _ _ ⟨by decide, by decide⟩
      (spongePermute_eval _ _ _ _ (by decide) permEval256 (by decide)))]
  decide


/-- The SHA3-384 digest of the empty message, computed through the
one-shot path of src/keccak.rs. -/
theorem sha3_384_empty : sha3_384 [] = some [12, 99, 167, 91, 132, 94, 79, 125, 1, 16, 125, 133, 46, 76, 36, 133, 197, 26, 80, 170, 170, 148, 252, 97, 153, 94, 113, 187, 238, 152, 58, 42, 195, 113, 56, 49, 38, 74, 219, 71, 251, 107, 209, 224, 88, 213, 240, 4] := by
  show Keccak.keccak (1600 - 384 * 2) (384 * 2) [] 48 = _
  rw [keccak_nil_eval (1600 - 384 * 2) (384 * 2) 48
    ((List.replicate 200 0).set 0 6 |>.set 103 128) [12, 99, 167, 91, 132, 94, 79, 125, 1, 16, 125, 133, 46, 76, 36, 133, 197, 26, 80, 170, 170, 148, 252, 97, 153, 94, 113, 187, 238, 152, 58, 42, 195, 113, 56, 49, 38, 74, 219, 71, 251, 107, 209, 224, 88, 213, 240, 4, 35, 133, 156, 34, 64, 245, 150, 104, 30, 93, 180, 197, 101, 9, 192, 198, 21, 73, 252, 80, 87, 216, 79, 204, 41, 240, 154, 248, 158, 15, 55, 176, 101, 103, 102, 199, 23, 30, 195, 13, 55, 97, 31, 170, 23, 185, 124, 191, 209, 199, 144, 163, 94, 86, 180, 186, 55, 37, 102, 2, 163, 227, 140, 202, 163, 173, 115, 225, 46, 72, 38, 217, 204, 158, 226, 158, 130, 198, 17, 139, 176, 177, 71, 73, 28, 65, 83, 226, 91, 85, 105, 187, 144, 155, 188, 171, 79, 238, 5, 80, 205, 124, 153, 227, 117, 116, 139, 230, 132, 247, 24, 128, 62, 68, 222, 205, 69, 234, 204, 44, 188, 11, 203, 233, 70, 221, 98, 169, 36, 181, 255, 127, 29, 107, 128, 126, 126, 160, 149, 9, 44, 195, 21, 124, 191, 194, 29, 5, 247, 145, 142, 28]
    (by norm_num) (by norm_num) (by decide)
    (keccakfB_eval _ _ ⟨by decide, by decide⟩
      (spongePermute_eval _ _ _ _ (by decide) permEval384 (by decide)))]
  decide


/-- The SHA3-512 digest of the empty message, computed through the
one-shot path of src/keccak.rs. -/
theorem sha3_512_empty : sha3_512 [] = some [166, 159, 115, 204, 162, 58, 154, 197, 200, 181, 103, 220, 24, 90, 117, 110, 151, 201, 130, 22, 79, 226, 88, 89, 224, 209, 220, 193, 71, 92, 128, 166, 21, 178, 18, 58, 241, 245, 249, 76, 17, 227, 233, 64, 44, 58, 197, 88, 245, 0, 25, 157, 149, 182, 211, 227, 1, 117, 133, 134, 40, 29, 205, 38] := by
  show Keccak.keccak (1600 - 512 * 2) (512 * 2) [] 64 = _
  rw [keccak_nil_eval (1600 - 512 * 2) (512 * 2) 64
    ((List.replicate 200 0).set 0 6 |>.set 71 128) [166, 159, 115, 204, 162, 58, 154, 197, 200, 181, 103, 220, 24, 90, 117, 110, 151, 201, 130, 22, 79, 226, 88, 89, 224, 209, 220, 193, 71, 92, 128, 166, 21, 178, 18, 58, 241, 245, 249, 76, 17, 227, 233, 64, 44, 58, 197, 88, 245, 0, 25, 157, 149, 182, 211, 227, 1, 117, 133, 134, 40, 29, 205, 38, 54, 75, 197, 184, 231, 143, 83, 184, 35, 221, 167, 244, 222, 159, 173, 0, 230, 125, 183, 47, 159, 159, 234, 12, 227, 201, 254, 241, 90, 118, 173, 197, 133, 235, 46, 253, 17, 135, 251, 101, 249, 201, 162, 115, 49, 81, 103, 227, 20, 250, 104, 182, 163, 34, 212, 7, 1, 93, 80, 42, 205, 236, 140, 136, 92, 79, 119, 132, 206, 208, 70, 9, 187, 53, 21, 74, 150, 72, 75, 86, 37, 211, 65, 124, 136, 96, 122, 205, 228, 194, 201, 155, 174, 94, 223, 158, 234, 42, 208, 251, 85, 162, 38, 24, 158, 17, 210, 73, 96, 67, 62, 43, 14, 224, 69, 164, 115, 9, 151, 118, 221, 93, 231, 57, 219, 155, 168, 25, 213, 76, 185, 3, 167, 165, 215, 238]
    (by norm_num) (by norm_num) (by decide)
    (keccakfB_eval _ _ ⟨by decide, by decide⟩
      (spongePermute_eval _ _ _ _ (by decide) permEval512 (by decide)))]
  decide
/-- Evaluation of a squeeze call from cursor 0 reading into a second block:
the tail is copied from the same block without an intermediate permutation. -/
theorem squeeze_over (R n : Nat) (st : List Nat) (hR : 0 < R) (h1 : R < n)
    (h2 : n < 2 * R) :
    Sponge.squeeze R ⟨0, st⟩ n =
      (⟨n - R, spongePermute st⟩,
        (spongePermute st).take R ++ [] ++ (spongePermute st).take (n - R)) := by
  simp only [Sponge.squeeze, if_neg (by omega : ¬n = 0)]
  norm_num
  rw [show min R n = R from by omega]
  rw [if_neg (by omega : ¬n - R = 0)]
  rw [show (n - R) / R = 0 from Nat.div_eq_of_lt (by omega)]
  rw [show (n - R) % R = n - R from Nat.mod_eq_of_lt (by omega)]
  simp [Sponge.squeezeChunks]

/-- First squeezed block of the SHA3-256 sponge after absorbing the empty
message: the byte view of the state after one permutation. -/
theorem spongePermute_pad256 :
    spongePermute (((List.replicate 200 0).set 0 6).set 135 128) =
      [167, 255, 198, 248, 191, 30, 215, 102, 81, 193, 71, 86, 160, 97, 214, 98, 245, 128, 255, 77, 228, 59, 73, 250, 130, 216, 10, 75, 128, 248, 67, 74, 82, 102, 190, 183, 52, 107, 243, 226, 102, 149, 204, 202, 33, 89, 135, 255, 137, 186, 179, 118, 87, 123, 217, 128, 59, 49, 106, 252, 85, 189, 222, 40, 204, 142, 228, 241, 25, 61, 172, 3, 233, 52, 228, 193, 236, 58, 25, 120, 121, 30, 232, 175, 35, 169, 135, 194, 51, 31, 96, 1, 227, 74, 104, 33, 95, 231, 9, 158, 70, 126, 46, 40, 184, 182, 130, 194, 210, 30, 125, 209, 78, 67, 175, 173, 210, 224, 80, 240, 176, 137, 169, 106, 251, 246, 117, 83, 30, 241, 250, 50, 96, 185, 198, 194, 178, 161, 85, 240, 211, 77, 104, 99, 178, 194, 142, 152, 139, 57, 8, 217, 38, 211, 11, 62, 144, 16, 63, 145, 23, 152, 71, 77, 102, 52, 252, 51, 88, 222, 143, 7, 26, 92, 113, 43, 121, 151, 54, 81, 146, 124, 11, 20, 94, 235, 189, 170, 167, 67, 115, 133, 229, 112, 123, 251, 14, 110, 19, 146] :=
  spongePermute_eval _ _ _ _ (by decide) permEval256 (by decide)

/-- Second squeezed block: the byte view after a further permutation. -/
theorem spongePermute_b1 :
    spongePermute [167, 255, 198, 248, 191, 30, 215, 102, 81, 193, 71, 86, 160, 97, 214, 98, 245, 128, 255, 77, 228, 59, 73, 250, 130, 216, 10, 75, 128, 248, 67, 74, 82, 102, 190, 183, 52, 107, 243, 226, 102, 149, 204, 202, 33, 89, 135, 255, 137, 186, 179, 118, 87, 123, 217, 128, 59, 49, 106, 252, 85, 189, 222, 40, 204, 142, 228, 241, 25, 61, 172, 3, 233, 52, 228, 193, 236, 58, 25, 120, 121, 30, 232, 175, 35, 169, 135, 194, 51, 31, 96, 1, 227, 74, 104, 33, 95, 231, 9, 158, 70, 126, 46, 40, 184, 182, 130, 194, 210, 30, 125, 209, 78, 67, 175, 173, 210, 224, 80, 240, 176, 137, 169, 106, 251, 246, 117, 83, 30, 241, 250, 50, 96, 185, 198, 194, 178, 161, 85, 240, 211, 77, 104, 99, 178, 194, 142, 152, 139, 57, 8, 217, 38, 211, 11, 62, 144, 16, 63, 145, 23, 152, 71, 77, 102, 52, 252, 51, 88, 222, 143, 7, 26, 92, 113, 43, 121, 151, 54, 81, 146, 124, 11, 20, 94, 235, 189, 170, 167, 67, 115, 133, 229, 112, 123, 251, 14, 110, 19, 146] =
      [232, 194, 252, 94, 84, 66, 133, 169, 27, 132, 223, 254, 11, 186, 235, 111, 55, 68, 175, 231, 201, 101, 236, 212, 179, 52, 24, 88, 103, 236, 235, 246, 130, 70, 77, 249, 82, 173, 60, 191, 145, 68, 102, 67, 247, 120, 103, 66, 246, 223, 74, 131, 203, 208, 41, 62, 195, 78, 179, 1, 164, 163, 133, 138, 64, 93, 99, 205, 220, 90, 116, 105, 244, 239, 251, 14, 182, 56, 149, 174, 138, 158, 175, 150, 41, 90, 105, 217, 244, 154, 243, 172, 80, 188, 239, 139, 252, 28, 198, 205, 169, 166, 128, 95, 221, 112, 184, 219, 64, 49, 57, 98, 83, 138, 44, 86, 169, 66, 53, 134, 65, 58, 66, 103, 11, 187, 31, 32, 33, 195, 174, 175, 194, 120, 129, 16, 40, 201, 14, 144, 87, 184, 6, 16, 145, 108, 61, 78, 74, 225, 181, 201, 236, 223, 188, 0, 135, 92, 188, 68, 246, 50, 96, 156, 248, 72, 39, 9, 143, 210, 239, 101, 168, 38, 167, 185, 109, 218, 100, 36, 172, 15, 56, 48, 212, 233, 229, 238, 255, 1, 115, 93, 215, 149, 206, 197, 194, 142, 174, 218] :=
  spongePermute_eval _ _ _ _ (by decide) permEvalB2 (by decide)

/-- Concrete value of a 136-byte squeeze from the freshly finalized
SHA3-256 empty-message sponge. -/
theorem squeeze256_full : Sponge.squeeze 136 ⟨0, ((List.replicate 200 0).set 0 6).set 135 128⟩ 136 =
    (⟨0, [167, 255, 198, 248, 191, 30, 215, 102, 81, 193, 71, 86, 160, 97, 214, 98, 245, 128, 255, 77, 228, 59, 73, 250, 130, 216, 10, 75, 128, 248, 67, 74, 82, 102, 190, 183, 52, 107, 243, 226, 102, 149, 204, 202, 33, 89, 135, 255, 137, 186, 179, 118, 87, 123, 217, 128, 59, 49, 106, 252, 85, 189, 222, 40, 204, 142, 228, 241, 25, 61, 172, 3, 233, 52, 228, 193, 236, 58, 25, 120, 121, 30, 232, 175, 35, 169, 135, 194, 51, 31, 96, 1, 227, 74, 104, 33, 95, 231, 9, 158, 70, 126, 46, 40, 184, 182, 130, 194, 210, 30, 125, 209, 78, 67, 175, 173, 210, 224, 80, 240, 176, 137, 169, 106, 251, 246, 117, 83, 30, 241, 250, 50, 96, 185, 198, 194, 178, 161, 85, 240, 211, 77, 104, 99, 178, 194, 142, 152, 139, 57, 8, 217, 38, 211, 11, 62, 144, 16, 63, 145, 23, 152, 71, 77, 102, 52, 252, 51, 88, 222, 143, 7, 26, 92, 113, 43, 121, 151, 54, 81, 146, 124, 11, 20, 94, 235, 189, 170, 167, 67, 115, 133, 229, 112, 123, 251, 14, 110, 19, 146]⟩, [167, 255, 198, 248, 191, 30, 215, 102, 81, 193, 71, 86, 160, 97, 214, 98, 245, 128, 255, 77, 228, 59, 73, 250, 130, 216, 10, 75, 128, 248, 67, 74, 82, 102, 190, 183, 52, 107, 243, 226, 102, 149, 204, 202, 33, 89, 135, 255, 137, 186, 179, 118, 87, 123, 217, 128, 59, 49, 106, 252, 85, 189, 222, 40, 204, 142, 228, 241, 25, 61, 172, 3, 233, 52, 228, 193, 236, 58, 25, 120, 121, 30, 232, 175, 35, 169, 135, 194, 51, 31, 96, 1, 227, 74, 104, 33, 95, 231, 9, 158, 70, 126, 46, 40, 184, 182, 130, 194, 210, 30, 125, 209, 78, 67, 175, 173, 210, 224, 80, 240, 176, 137, 169, 106, 251, 246, 117, 83, 30, 241, 250, 50, 96, 185, 198, 194]) := by
  rw [squeeze_le 136 136 _ (by norm_num) (by norm_num) (by norm_num),
    spongePermute_pad256]
  decide

/-- Concrete value of a subsequent 1-byte squeeze: the cursor is 0, so the
state is permuted before reading. -/
theorem squeeze256_one : Sponge.squeeze 136 ⟨0, [167, 255, 198, 248, 191, 30, 215, 102, 81, 193, 71, 86, 160, 97, 214, 98, 245, 128, 255, 77, 228, 59, 73, 250, 130, 216, 10, 75, 128, 248, 67, 74, 82, 102, 190, 183, 52, 107, 243, 226, 102, 149, 204, 202, 33, 89, 135, 255, 137, 186, 179, 118, 87, 123, 217, 128, 59, 49, 106, 252, 85, 189, 222, 40, 204, 142, 228, 241, 25, 61, 172, 3, 233, 52, 228, 193, 236, 58, 25, 120, 121, 30, 232, 175, 35, 169, 135, 194, 51, 31, 96, 1, 227, 74, 104, 33, 95, 231, 9, 158, 70, 126, 46, 40, 184, 182, 130, 194, 210, 30, 125, 209, 78, 67, 175, 173, 210, 224, 80, 240, 176, 137, 169, 106, 251, 246, 117, 83, 30, 241, 250, 50, 96, 185, 198, 194, 178, 161, 85, 240, 211, 77, 104, 99, 178, 194, 142, 152, 139, 57, 8, 217, 38, 211, 11, 62, 144, 16, 63, 145, 23, 152, 71, 77, 102, 52, 252, 51, 88, 222, 143, 7, 26, 92, 113, 43, 121, 151, 54, 81, 146, 124, 11, 20, 94, 235, 189, 170, 167, 67, 115, 133, 229, 112, 123, 251, 14, 110, 19, 146]⟩ 1 =
    (⟨1, [232, 194, 252, 94, 84, 66, 133, 169, 27, 132, 223, 254, 11, 186, 235, 111, 55, 68, 175, 231, 201, 101, 236, 212, 179, 52, 24, 88, 103, 236, 235, 246, 130, 70, 77, 249, 82, 173, 60, 191, 145, 68, 102, 67, 247, 120, 103, 66, 246, 223, 74, 131, 203, 208, 41, 62, 195, 78, 179, 1, 164, 163, 133, 138, 64, 93, 99, 205, 220, 90, 116, 105, 244, 239, 251, 14, 182, 56, 149, 174, 138, 158, 175, 150, 41, 90, 105, 217, 244, 154, 243, 172, 80, 188, 239, 139, 252, 28, 198, 205, 169, 166, 128, 95, 221, 112, 184, 219, 64, 49, 57, 98, 83, 138, 44, 86, 169, 66, 53, 134, 65, 58, 66, 103, 11, 187, 31, 32, 33, 195, 174, 175, 194, 120, 129, 16, 40, 201, 14, 144, 87, 184, 6, 16, 145, 108, 61, 78, 74, 225, 181, 201, 236, 223, 188, 0, 135, 92, 188, 68, 246, 50, 96, 156, 248, 72, 39, 9, 143, 210, 239, 101, 168, 38, 167, 185, 109, 218, 100, 36, 172, 15, 56, 48, 212, 233, 229, 238, 255, 1, 115, 93, 215, 149, 206, 197, 194, 142, 174, 218]⟩, [232]) := by
  rw [squeeze_le 136 1 _ (by norm_num) (by norm_num) (by norm_num),
    spongePermute_b1]
  decide

/-- Concrete value of a single 137-byte squeeze: the final 1-byte tail is
copied from the beginning of the same block with no permutation. -/
theorem squeeze256_overfull : Sponge.squeeze 136 ⟨0, ((List.replicate 200 0).set 0 6).set 135 128⟩ 137 =
    (⟨1, [167, 255, 198, 248, 191, 30, 215, 102, 81, 193, 71, 86, 160, 97, 214, 98, 245, 128, 255, 77, 228, 59, 73, 250, 130, 216, 10, 75, 128, 248, 67, 74, 82, 102, 190, 183, 52, 107, 243, 226, 102, 149, 204, 202, 33, 89, 135, 255, 137, 186, 179, 118, 87, 123, 217, 128, 59, 49, 106, 252, 85, 189, 222, 40, 204, 142, 228, 241, 25, 61, 172, 3, 233, 52, 228, 193, 236, 58, 25, 120, 121, 30, 232, 175, 35, 169, 135, 194, 51, 31, 96, 1, 227, 74, 104, 33, 95, 231, 9, 158, 70, 126, 46, 40, 184, 182, 130, 194, 210, 30, 125, 209, 78, 67, 175, 173, 210, 224, 80, 240, 176, 137, 169, 106, 251, 246, 117, 83, 30, 241, 250, 50, 96, 185, 198, 194, 178, 161, 85, 240, 211, 77, 104, 99, 178, 194, 142, 152, 139, 57, 8, 217, 38, 211, 11, 62, 144, 16, 63, 145, 23, 152, 71, 77, 102, 52, 252, 51, 88, 222, 143, 7, 26, 92, 113, 43, 121, 151, 54, 81, 146, 124, 11, 20, 94, 235, 189, 170, 167, 67, 115, 133, 229, 112, 123, 251, 14, 110, 19, 146]⟩, [167, 255, 198, 248, 191, 30, 215, 102, 81, 193, 71, 86, 160, 97, 214, 98, 245, 128, 255, 77, 228, 59, 73, 250, 130, 216, 10, 75, 128, 248, 67, 74, 82, 102, 190, 183, 52, 107, 243, 226, 102, 149, 204, 202, 33, 89, 135, 255, 137, 186, 179, 118, 87, 123, 217, 128, 59, 49, 106, 252, 85, 189, 222, 40, 204, 142, 228, 241, 25, 61, 172, 3, 233, 52, 228, 193, 236, 58, 25, 120, 121, 30, 232, 175, 35, 169, 135, 194, 51, 31, 96, 1, 227, 74, 104, 33, 95, 231, 9, 158, 70, 126, 46, 40, 184, 182, 130, 194, 210, 30, 125, 209, 78, 67, 175, 173, 210, 224, 80, 240, 176, 137, 169, 106, 251, 246, 117, 83, 30, 241, 250, 50, 96, 185, 198, 194, 167]) := by
  rw [squeeze_over 136 137 _ (by norm_num) (by norm_num) (by norm_num),
    spongePermute_pad256]
  decide

theorem fipsBlocks_succ (R : Nat) (st : List Nat) (k : Nat) :
    fipsBlocks R st (k + 1) =
      (spongePermute st).take R ++ fipsBlocks R (spongePermute st) k := rfl

theorem fipsBlocks_zero (R : Nat) (st : List Nat) : fipsBlocks R st 0 = [] := rfl

/-- The FIPS squeezing stream from the finalized empty-message SHA3-256
state, evaluated for lengths up to two blocks. -/
theorem fipsBlocks_pad256 : fipsBlocks 136 (((List.replicate 200 0).set 0 6).set 135 128) 2 =
    [167, 255, 198, 248, 191, 30, 215, 102, 81, 193, 71, 86, 160, 97, 214, 98, 245, 128, 255, 77, 228, 59, 73, 250, 130, 216, 10, 75, 128, 248, 67, 74, 82, 102, 190, 183, 52, 107, 243, 226, 102, 149, 204, 202, 33, 89, 135, 255, 137, 186, 179, 118, 87, 123, 217, 128, 59, 49, 106, 252, 85, 189, 222, 40, 204, 142, 228, 241, 25, 61, 172, 3, 233, 52, 228, 193, 236, 58, 25, 120, 121, 30, 232, 175, 35, 169, 135, 194, 51, 31, 96, 1, 227, 74, 104, 33, 95, 231, 9, 158, 70, 126, 46, 40, 184, 182, 130, 194, 210, 30, 125, 209, 78, 67, 175, 173, 210, 224, 80, 240, 176, 137, 169, 106, 251, 246, 117, 83, 30, 241, 250, 50, 96, 185, 198, 194] ++ ([232, 194, 252, 94, 84, 66, 133, 169, 27, 132, 223, 254, 11, 186, 235, 111, 55, 68, 175, 231, 201, 101, 236, 212, 179, 52, 24, 88, 103, 236, 235, 246, 130, 70, 77, 249, 82, 173, 60, 191, 145, 68, 102, 67, 247, 120, 103, 66, 246, 223, 74, 131, 203, 208, 41, 62, 195, 78, 179, 1, 164, 163, 133, 138, 64, 93, 99, 205, 220, 90, 116, 105, 244, 239, 251, 14, 182, 56, 149, 174, 138, 158, 175, 150, 41, 90, 105, 217, 244, 154, 243, 172, 80, 188, 239, 139, 252, 28, 198, 205, 169, 166, 128, 95, 221, 112, 184, 219, 64, 49, 57, 98, 83, 138, 44, 86, 169, 66, 53, 134, 65, 58, 66, 103, 11, 187, 31, 32, 33, 195, 174, 175, 194, 120, 129, 16] ++ []) := by
  rw [show (2 : Nat) = 1 + 1 from rfl, fipsBlocks_succ, spongePermute_pad256,
    show (1 : Nat) = 0 + 1 from rfl, fipsBlocks_succ, spongePermute_b1,
    fipsBlocks_zero]
  decide

/-- Absorbing a list of message parts in sequence equals absorbing their
concatenation. -/
theorem absorb_parts (R : Nat) (hR : 0 < R) :
    ∀ (parts : List (List Nat)) (s : Sponge.AbsorbSt), s.pos < R →
      parts.foldl (Sponge.absorb R) s = Sponge.absorb R s parts.flatten := by
  intro parts
  induction parts with
  | nil =>
    intro s h
    rw [List.foldl_nil, show ([] : List (List Nat)).flatten = [] from rfl,
      absorb_nil R s h]
  | cons p ps ih =>
    intro s h
    rw [List.foldl_cons, ih (Sponge.absorb R s p) (absorb_pos_lt R hR s h p),
      List.flatten_cons, absorb_append R hR s h]

/-! Claim theorems. -/

/-- C1. The specification requires squeeze step 5 to invoke the
permutation before copying a final partial block, making a single squeeze
of length L equal to any split into calls summing to L. The code of
`SqueezeState::squeeze` in src/sponge.rs omits that permutation: on the
finalized empty-message SHA3-256 sponge, a single 137-byte squeeze
duplicates byte 0 of the current block at position 136, and differs from
squeezing 136 bytes and then 1 byte. -/
theorem sponge_squeeze_tail_behavior :
    ((Sponge.squeeze 136 (Sponge.intoSqueeze 136 6 ⟨0, List.replicate 200 0⟩) 137).2.getD 136 0 =
      (Sponge.squeeze 136 (Sponge.intoSqueeze 136 6 ⟨0, List.replicate 200 0⟩) 137).2.getD 0 0) ∧
    (Sponge.squeeze 136 (Sponge.intoSqueeze 136 6 ⟨0, List.replicate 200 0⟩) 137).2 ≠
      (Sponge.squeeze 136 (Sponge.intoSqueeze 136 6 ⟨0, List.replicate 200 0⟩) 136).2 ++
        (Sponge.squeeze 136
          (Sponge.squeeze 136 (Sponge.intoSqueeze 136 6 ⟨0, List.replicate 200 0⟩) 136).1 1).2 := by
  have hpad : Sponge.intoSqueeze 136 6 ⟨0, List.replicate 200 0⟩ =
      (⟨0, ((List.replicate 200 0).set 0 6).set 135 128⟩ : Sponge.SqueezeSt) := by decide
  simp only [hpad, squeeze256_overfull, squeeze256_full, squeeze256_one]
  refine ⟨by decide, by decide⟩

/-- C2. Each of the four one-shot hash functions applied to the empty
message returns exactly the digest listed in the specification. -/
theorem sha3_empty_message_digests :
    sha3_224 [] = some [107, 78, 3, 66, 54, 103, 219, 183, 59, 110, 21, 69, 79, 14, 177, 171, 212, 89, 127, 154, 27, 7, 142, 63, 91, 90, 107, 199] ∧
    sha3_256 [] = some [167, 255, 198, 248, 191, 30, 215, 102, 81, 193, 71, 86, 160, 97, 214, 98, 245, 128, 255, 77, 228, 59, 73, 250, 130, 216, 10, 75, 128, 248, 67, 74] ∧
    sha3_384 [] = some [12, 99, 167, 91, 132, 94, 79, 125, 1, 16, 125, 133, 46, 76, 36, 133, 197, 26, 80, 170, 170, 148, 252, 97, 153, 94, 113, 187, 238, 152, 58, 42, 195, 113, 56, 49, 38, 74, 219, 71, 251, 107, 209, 224, 88, 213, 240, 4] ∧
    sha3_512 [] = some [166, 159, 115, 204, 162, 58, 154, 197, 200, 181, 103, 220, 24, 90, 117, 110, 151, 201, 130, 22, 79, 226, 88, 89, 224, 209, 220, 193, 71, 92, 128, 166, 21, 178, 18, 58, 241, 245, 249, 76, 17, 227, 233, 64, 44, 58, 197, 88, 245, 0, 25, 157, 149, 182, 211, 227, 1, 117, 133, 134, 40, 29, 205, 38] :=
  ⟨sha3_224_empty, sha3_256_empty, sha3_384_empty, sha3_512_empty⟩

/-- C3. The Keccak-f[1600] permutation of src/permute.rs performs exactly
24 rounds, each applying theta, rho, pi, chi, iota in that order; iota
XORs the round constant indexed by the round number 0..23 into lane
(0, 0), and the constant table is exactly the 24-entry table of the
specification. -/
theorem keccakf_round_structure :
    (∀ A : List Nat, Permute.keccakf_1600_permute A =
      (List.range 24).foldl
        (fun A round =>
          Permute.iota (Permute.chi (Permute.pi (Permute.rho (Permute.theta A)))) round)
        A) ∧
    Permute.KECCAK_ROUND_CONSTANTS =
      [0x1, 0x8082, 0x800000000000808a, 0x8000000080008000, 0x808b, 0x80000001,
       0x8000000080008081, 0x8000000000008009, 0x8a, 0x88, 0x80008009,
       0x8000000a, 0x8000808b, 0x800000000000008b, 0x8000000000008089,
       0x8000000000008003, 0x8000000000008002, 0x8000000000000080, 0x800a,
       0x800000008000000a, 0x8000000080008081, 0x8000000000008080, 0x80000001,
       0x8000000080008008] ∧
    Permute.KECCAK_ROUND_CONSTANTS.length = 24 ∧
    (∀ (A : List Nat) (round : Nat), Permute.iota A round =
      Permute.setL A 0 0 (Permute.getL A 0 0 ^^^
        Permute.KECCAK_ROUND_CONSTANTS.getD round 0)) := by
  refine ⟨?_, rfl, rfl, fun A round => rfl⟩
  intro A
  rw [keccakf_unfold]
  have hfn : Permute.roundFn = fun (A : List Nat) (round : Nat) =>
      Permute.iota (Permute.chi (Permute.pi (Permute.rho (Permute.theta A)))) round := by
    funext A round
    exact roundFn_def A round
  rw [hfn, show Permute.ROUNDS = 24 from rfl]

/-- C4. Streaming associativity of absorb for a supported rate: absorbing
an empty message is a no-op, absorbing two parts in sequence equals one
absorb of their concatenation, and absorbing any list of parts in
sequence equals one absorb of the flattened message. -/
theorem absorb_streaming_associativity (R : Nat)
    (hR : R = 144 ∨ R = 136 ∨ R = 104 ∨ R = 72) (s : Sponge.AbsorbSt)
    (hpos : s.pos < R) :
    Sponge.absorb R s [] = s ∧
    (∀ m1 m2 : List Nat,
      Sponge.absorb R (Sponge.absorb R s m1) m2 = Sponge.absorb R s (m1 ++ m2)) ∧
    (∀ parts : List (List Nat),
      parts.foldl (Sponge.absorb R) s = Sponge.absorb R s parts.flatten) := by
  have hR0 : 0 < R := by rcases hR with h | h | h | h <;> omega
  exact ⟨absorb_nil R s hpos, fun m1 m2 => absorb_append R hR0 s hpos m1 m2,
    fun parts => absorb_parts R hR0 parts s hpos⟩

/-- Witness for C4 at rate 136 and the freshly initialized sponge. -/
theorem absorb_streaming_associativity_witness :
    ((136 : Nat) = 144 ∨ (136 : Nat) = 136 ∨ (136 : Nat) = 104 ∨ (136 : Nat) = 72) ∧
    (⟨0, List.replicate 200 0⟩ : Sponge.AbsorbSt).pos < 136 ∧
    (Sponge.absorb 136 ⟨0, List.replicate 200 0⟩ [] = ⟨0, List.replicate 200 0⟩ ∧
(∀ m1 m2 : List Nat,
      Sponge.absorb 136 (Sponge.absorb 136 ⟨0, List.replicate 200 0⟩ m1) m2 =
        Sponge.absorb 136 ⟨0, List.replicate 200 0⟩ (m1 ++ m2)) ∧
    (∀ parts : List (List Nat),
      parts.foldl (Sponge.absorb 136) ⟨0, List.replicate 200 0⟩ =
        Sponge.absorb 136 ⟨0, List.replicate 200 0⟩ parts.flatten)) :=
  ⟨by decide, by decide,
    absorb_streaming_associativity 136 (by decide) ⟨0, List.replicate 200 0⟩ (by decide)⟩
/-- C5. For each digest size, the one-shot function of src/lib.rs computes
the same digest as the incremental composition new, update, finalize of
src/hasher.rs, for every whole byte message. -/
theorem one_shot_eq_incremental_hasher (msg : List Nat)
    (hm : ∀ b ∈ msg, b < 256) :
    sha3_224 msg = Hasher.sha3_224 msg ∧ sha3_256 msg = Hasher.sha3_256 msg ∧
    sha3_384 msg = Hasher.sha3_384 msg ∧ sha3_512 msg = Hasher.sha3_512 msg := by
  refine ⟨?_, ?_, ?_, ?_⟩
  · rw [show sha3_224 msg = Keccak.keccak (8 * 144) (1600 - 8 * 144) msg 28 from rfl,
      keccak_eq_incremental 144 28 (by norm_num) (by norm_num) (by norm_num)
        (by norm_num) msg hm,
      show Hasher.sha3_224 msg = (Hasher.new 144).map
        (fun s => Hasher.finalize 144 28 (Hasher.update 144 s msg)) from rfl,
      show Hasher.new 144 = some ⟨0, List.replicate 200 0⟩ from by decide]
    rfl
  · rw [show sha3_256 msg = Keccak.keccak (8 * 136) (1600 - 8 * 136) msg 32 from rfl,
      keccak_eq_incremental 136 32 (by norm_num) (by norm_num) (by norm_num)
        (by norm_num) msg hm,
      show Hasher.sha3_256 msg = (Hasher.new 136).map
        (fun s => Hasher.finalize 136 32 (Hasher.update 136 s msg)) from rfl,
      show Hasher.new 136 = some ⟨0, List.replicate 200 0⟩ from by decide]
    rfl
  · rw [show sha3_384 msg = Keccak.keccak (8 * 104) (1600 - 8 * 104) msg 48 from rfl,
      keccak_eq_incremental 104 48 (by norm_num) (by norm_num) (by norm_num)
        (by norm_num) msg hm,
      show Hasher.sha3_384 msg = (Hasher.new 104).map
        (fun s => Hasher.finalize 104 48 (Hasher.update 104 s msg)) from rfl,
      show Hasher.new 104 = some ⟨0, List.replicate 200 0⟩ from by decide]
    rfl
  · rw [show sha3_512 msg = Keccak.keccak (8 * 72) (1600 - 8 * 72) msg 64 from rfl,
      keccak_eq_incremental 72 64 (by norm_num) (by norm_num) (by norm_num)
        (by norm_num) msg hm,
      show Hasher.sha3_512 msg = (Hasher.new 72).map
        (fun s => Hasher.finalize 72 64 (Hasher.update 72 s msg)) from rfl,
      show Hasher.new 72 = some ⟨0, List.replicate 200 0⟩ from by decide]
    rfl

/-- Witness for C5 on the three-byte message abc. -/
theorem one_shot_eq_incremental_hasher_witness :
    (∀ b ∈ [97, 98, 99], b < 256) ∧
    (sha3_224 [97, 98, 99] = Hasher.sha3_224 [97, 98, 99] ∧
     sha3_256 [97, 98, 99] = Hasher.sha3_256 [97, 98, 99] ∧
     sha3_384 [97, 98, 99] = Hasher.sha3_384 [97, 98, 99] ∧
     sha3_512 [97, 98, 99] = Hasher.sha3_512 [97, 98, 99]) :=
  ⟨by decide, one_shot_eq_incremental_hasher [97, 98, 99] (by decide)⟩
/-- C6. The finalization transition XORs the domain suffix at the cursor
and 0x80 at offset RATE - 1, resets the cursor to 0 and performs no
permutation; the first permutation of the squeezing phase happens at the
first squeeze call. The final part of the claim fails on the code: the
squeezed bytes agree with the FIPS 202 permute-at-end-of-absorb
formulation for a 136-byte squeeze but differ for a 137-byte squeeze,
because the tail of the squeeze loop omits a permutation. -/
theorem into_squeeze_finalization_behavior :
    (∀ (R suffix : Nat) (s : Sponge.AbsorbSt),
      (Sponge.intoSqueeze R suffix s).pos = 0 ∧
      (Sponge.intoSqueeze R suffix s).state =
        (s.state.set s.pos (s.state.getD s.pos 0 ^^^ suffix)).set (R - 1)
          ((s.state.set s.pos (s.state.getD s.pos 0 ^^^ suffix)).getD (R - 1) 0 ^^^
            128)) ∧
    (Sponge.squeeze 136 (Sponge.intoSqueeze 136 6 ⟨0, List.replicate 200 0⟩) 136).2 =
      fipsSqueeze 136 (Sponge.intoSqueeze 136 6 ⟨0, List.replicate 200 0⟩).state 136 ∧
    (Sponge.squeeze 136 (Sponge.intoSqueeze 136 6 ⟨0, List.replicate 200 0⟩) 137).2 ≠
      fipsSqueeze 136 (Sponge.intoSqueeze 136 6 ⟨0, List.replicate 200 0⟩).state 137 := by
  have hpad : Sponge.intoSqueeze 136 6 ⟨0, List.replicate 200 0⟩ =
      (⟨0, ((List.replicate 200 0).set 0 6).set 135 128⟩ : Sponge.SqueezeSt) := by decide
  refine ⟨fun R suffix s => ⟨rfl, rfl⟩, ?_, ?_⟩
  · simp only [hpad, squeeze256_full, fipsSqueeze,
      show (136 : Nat) / 136 + 1 = 2 from by norm_num, fipsBlocks_pad256]
    decide
  · simp only [hpad, squeeze256_overfull, fipsSqueeze,
      show (137 : Nat) / 136 + 1 = 2 from by norm_num, fipsBlocks_pad256]
    decide

/-- C7. Cursor invariant: for a supported rate the cursor is below the
rate after initialization and is preserved by absorb, by the finalization
transition and by squeeze. -/
theorem sponge_cursor_invariant (R : Nat)
    (hR : R = 144 ∨ R = 136 ∨ R = 104 ∨ R = 72) :
    (∀ s : Sponge.AbsorbSt, Sponge.init R = some s → s.pos < R) ∧
    (∀ (s : Sponge.AbsorbSt) (msg : List Nat), s.pos < R →
      (Sponge.absorb R s msg).pos < R) ∧
    (∀ (s : Sponge.AbsorbSt) (suffix : Nat),
      (Sponge.intoSqueeze R suffix s).pos < R) ∧
    (∀ (s : Sponge.SqueezeSt) (n : Nat), s.pos < R →
      (Sponge.squeeze R s n).1.pos < R) := by
  have hR0 : 0 < R := by rcases hR with h | h | h | h <;> omega
  refine ⟨?_, ?_, ?_, ?_⟩
  · intro s h
    unfold Sponge.init Sponge.stateNew at h
    rw [if_pos hR] at h
    simp only [Option.map_some'] at h
    injection h with h
    rw [← h]
    exact hR0
  · exact fun s msg h => absorb_pos_lt R hR0 s h msg
  · intro s suffix
    exact hR0
  · exact fun s n h => squeeze_pos_lt R hR0 s h n

/-- Witness for C7 at rate 104. -/
theorem sponge_cursor_invariant_witness :
    ((104 : Nat) = 144 ∨ (104 : Nat) = 136 ∨ (104 : Nat) = 104 ∨ (104 : Nat) = 72) ∧
    ((∀ s : Sponge.AbsorbSt, Sponge.init 104 = some s → s.pos < 104) ∧
     (∀ (s : Sponge.AbsorbSt) (msg : List Nat), s.pos < 104 →
       (Sponge.absorb 104 s msg).pos < 104) ∧
     (∀ (s : Sponge.AbsorbSt) (suffix : Nat),
       (Sponge.intoSqueeze 104 suffix s).pos < 104) ∧
     (∀ (s : Sponge.SqueezeSt) (n : Nat), s.pos < 104 →
       (Sponge.squeeze 104 s n).1.pos < 104)) :=
  ⟨by decide, sponge_cursor_invariant 104 (by decide)⟩
/-- C8. Parameter validation at construction: `State::new` of
src/permute.rs succeeds exactly for the four supported byte rates,
returning the all-zero state, and panics otherwise, also for multiples of
8 below 200 outside that set; the one-shot `keccak` of src/keccak.rs
asserts `rate + capacity == 1600` and `rate % 8 == 0`. -/
theorem construction_rate_validation :
    (∀ R : Nat, (R = 144 ∨ R = 136 ∨ R = 104 ∨ R = 72) →
      Sponge.stateNew R = some (List.replicate 200 0)) ∧
    (∀ R : Nat, ¬(R = 144 ∨ R = 136 ∨ R = 104 ∨ R = 72) →
      Sponge.stateNew R = none) ∧
    Sponge.stateNew 8 = none ∧ Sponge.stateNew 192 = none ∧
    (∀ (rate capacity outLen : Nat) (input : List Nat),
      rate + capacity ≠ 1600 → Keccak.keccak rate capacity input outLen = none) ∧
    (∀ (rate capacity outLen : Nat) (input : List Nat),
      rate % 8 ≠ 0 → Keccak.keccak rate capacity input outLen = none) := by
  refine ⟨?_, ?_, by decide, by decide, ?_, ?_⟩
  · intro R h
    unfold Sponge.stateNew
    rw [if_pos h]
  · intro R h
    unfold Sponge.stateNew
    rw [if_neg h]
  · intro rate capacity outLen input h
    rw [Keccak.keccak, if_pos h]
  · intro rate capacity outLen input h
    rw [Keccak.keccak]
    by_cases h16 : rate + capacity ≠ 1600
    · rw [if_pos h16]
    · rw [if_neg h16, if_pos h]

/-- Witness for C8 at a supported rate, an unsupported multiple of 8 and
two failing assertions. -/
theorem construction_rate_validation_witness :
    Sponge.stateNew 136 = some (List.replicate 200 0) ∧
    Sponge.stateNew 16 = none ∧
    Keccak.keccak 100 100 [] 4 = none ∧
    Keccak.keccak 12 1588 [] 4 = none :=
  ⟨construction_rate_validation.1 136 (by decide),
   construction_rate_validation.2.1 16 (by decide),
   construction_rate_validation.2.2.2.2.1 100 100 4 [] (by decide),
   construction_rate_validation.2.2.2.2.2 12 1588 4 [] (by decide)⟩

/-- C9. The byte-array permutation of src/keccak.rs and the u64-lane
permutation of src/permute.rs compute the same function: on every
200-byte state, the former equals little-endian decoding into 25 lanes,
the latter, and serialization back to bytes. -/
theorem byte_lane_permutation_equivalence (bs : List Nat)
    (h1 : bs.length = 200) (h2 : ∀ b ∈ bs, b < 256) :
    Keccak.keccakf_1600_state_permute bs =
      lanesToBytes (Permute.keccakf_1600_permute (bytesToLanes bs)) :=
  (keccak_permute_eq_sponge_permute bs ⟨h1, h2⟩).trans (spongePermute_def bs)

/-- Witness for C9 on the all-zero state. -/
theorem byte_lane_permutation_equivalence_witness :
    (List.replicate 200 0).length = 200 ∧
    (∀ b ∈ List.replicate 200 0, b < 256) ∧
    Keccak.keccakf_1600_state_permute (List.replicate 200 0) =
      lanesToBytes (Permute.keccakf_1600_permute (bytesToLanes (List.replicate 200 0))) :=
  ⟨by decide, by decide,
   byte_lane_permutation_equivalence (List.replicate 200 0) (by decide) (by decide)⟩

/-- C10. The squeezing loop of the one-shot `keccak` copies the first
`len(output)` state bytes when the output fits in one rate block, and
panics on the `copy_from_slice` length mismatch when the output exceeds
`rate / 8` bytes; under the public API the panic branch is unreachable:
all four one-shot functions return a digest for every byte message. -/
theorem keccak_squeeze_loop_behavior :
    (∀ (rib outLen : Nat) (st : List Nat), 0 < outLen → outLen ≤ rib →
      Keccak.keccakSqueeze rib st outLen = some (st.take outLen)) ∧
    (∀ (rib outLen : Nat) (st : List Nat), rib < outLen →
      Keccak.keccakSqueeze rib st outLen = none) ∧
    (∀ msg : List Nat, (∀ b ∈ msg, b < 256) →
      (sha3_224 msg).isSome = true ∧ (sha3_256 msg).isSome = true ∧
      (sha3_384 msg).isSome = true ∧ (sha3_512 msg).isSome = true) := by
  refine ⟨fun rib outLen st h0 hle => keccakSqueeze_le rib outLen st (by omega) hle,
    ?_, ?_⟩
  · intro rib outLen st h
    simp only [Keccak.keccakSqueeze, if_neg (by omega : ¬outLen = 0)]
    rw [show min outLen rib = rib from by omega, if_neg (by omega)]
  · intro msg hm
    refine ⟨?_, ?_, ?_, ?_⟩
    · rw [show sha3_224 msg = Keccak.keccak (8 * 144) (1600 - 8 * 144) msg 28 from rfl,
        keccak_eq_incremental 144 28 (by norm_num) (by norm_num) (by norm_num)
          (by norm_num) msg hm]
      rfl
    · rw [show sha3_256 msg = Keccak.keccak (8 * 136) (1600 - 8 * 136) msg 32 from rfl,
        keccak_eq_incremental 136 32 (by norm_num) (by norm_num) (by norm_num)
          (by norm_num) msg hm]
      rfl
    · rw [show sha3_384 msg = Keccak.keccak (8 * 104) (1600 - 8 * 104) msg 48 from rfl,
        keccak_eq_incremental 104 48 (by norm_num) (by norm_num) (by norm_num)
          (by norm_num) msg hm]
      rfl
    · rw [show sha3_512 msg = Keccak.keccak (8 * 72) (1600 - 8 * 72) msg 64 from rfl,
        keccak_eq_incremental 72 64 (by norm_num) (by norm_num) (by norm_num)
          (by norm_num) msg hm]
      rfl

/-- Witness for C10: a fitting output, an oversized output, and a digest
for a concrete message. -/
theorem keccak_squeeze_loop_behavior_witness :
    Keccak.keccakSqueeze 136 (List.replicate 200 0) 32 =
      some ((List.replicate 200 0).take 32) ∧
    Keccak.keccakSqueeze 136 (List.replicate 200 0) 150 = none ∧
    (sha3_256 [97]).isSome = true :=
  ⟨keccak_squeeze_loop_behavior.1 136 32 (List.replicate 200 0) (by decide) (by decide),
   keccak_squeeze_loop_behavior.2.1 136 150 (List.replicate 200 0) (by decide),
   (keccak_squeeze_loop_behavior.2.2 [97] (by decide)).2.1⟩
